import Mathlib

/-!
Verification development for the serverless translation function in
`lambda/translate_function.py`.

The Python code is shallowly embedded: JSON-like Python values become the
inductive type `Value`, the AWS Translate client becomes an explicit oracle
parameter, the S3/DynamoDB collaborators become a `PersistEnv` record of
write outcomes, and every fallible Python code path returns `Except PyErr`.
Wall-clock readings (timestamps, processing times) are threaded as
parameters, since they are environment inputs, not computed by the code.
Python floats are modelled as exact rationals.
-/

namespace TranslateService

/-- A JSON-like Python value: `None`, booleans, integers, strings, lists and
string-keyed dicts (insertion-ordered association lists, as in Python).
`vRat` stands for Python float values appearing in results; inputs parsed
from JSON in the scenarios of interest never contain floats. -/
inductive Value where
  | vNull
  | vBool (b : Bool)
  | vInt (n : Int)
  | vStr (s : String)
  | vRat (q : ℚ)
  | vList (items : List Value)
  | vDict (entries : List (String × Value))

/-- Python truthiness (`bool(x)`): `None`, `False`, `0`, `""`, `[]`, `{}`
are falsy, everything else is truthy. -/
def pyTruthy : Value → Bool
  | Value.vNull => false
  | Value.vBool b => b
  | Value.vInt n => n != 0
  | Value.vStr s => s != ""
  | Value.vRat q => q != 0
  | Value.vList l => !l.isEmpty
  | Value.vDict l => !l.isEmpty

/-- `isinstance(x, dict)`. -/
def isDictV : Value → Bool
  | Value.vDict _ => true
  | _ => false

/-- Python `type(x).__name__` for the embedded value kinds. -/
def pyTypeName : Value → String
  | Value.vNull => "NoneType"
  | Value.vBool _ => "bool"
  | Value.vInt _ => "int"
  | Value.vStr _ => "str"
  | Value.vRat _ => "float"
  | Value.vList _ => "list"
  | Value.vDict _ => "dict"

/-- Dictionary key lookup, `d[k]` / `k in d` on the association list. -/
def dictGet (v : Value) (k : String) : Option Value :=
  match v with
  | Value.vDict l => l.lookup k
  | _ => none

/-- `d.get(k, default)`. -/
def dictGetD (v : Value) (k : String) (d : Value) : Value :=
  (dictGet v k).getD d

mutual

/-- Python `repr` of a value, to the extent the error messages need it:
strings are single-quoted, `None`/`True`/`False` capitalized, lists and
dicts rendered element by element. -/
def pyRepr : Value → String
  | Value.vNull => "None"
  | Value.vBool b => if b then "True" else "False"
  | Value.vInt n => toString n
  | Value.vStr s => "\x27" ++ s ++ "\x27"
  | Value.vRat q => toString q
  | Value.vList l => "[" ++ pyReprList l ++ "]"
  | Value.vDict l => "\x7b" ++ pyReprEntries l ++ "\x7d"

def pyReprList : List Value → String
  | [] => ""
  | [v] => pyRepr v
  | v :: rest => pyRepr v ++ ", " ++ pyReprList rest

def pyReprEntries : List (String × Value) → String
  | [] => ""
  | [(k, v)] => "\x27" ++ k ++ "\x27: " ++ pyRepr v
  | (k, v) :: rest => "\x27" ++ k ++ "\x27: " ++ pyRepr v ++ ", " ++ pyReprEntries rest

end

/-- Python `str(x)`: like `repr` except strings render unquoted. -/
def pyStr : Value → String
  | Value.vStr s => s
  | v => pyRepr v

/-- Python `str.strip()` with the default whitespace set, realized on the
character list (space, tab, CR, LF — the whitespace the scenarios use;
`String.trim` itself is avoided because it does not reduce in the kernel). -/
def pyStrip (s : String) : String :=
  String.mk (((s.data.dropWhile Char.isWhitespace).reverse.dropWhile
    Char.isWhitespace).reverse)

/-- A raised Python exception: class name and `str(e)`. -/
structure PyErr where
  ty : String
  msg : String

/-- Python `round(q, digits)` on exact rationals: round-half-to-even, the
behavior of Python `round` (the code rounds float values; floats are
modelled as exact rationals here). -/
def pyRoundTo (digits : Nat) (q : ℚ) : ℚ :=
  let scale : ℚ := (10 : ℚ) ^ digits
  let x : ℚ := q * scale
  let f : Int := x.floor
  let r : ℚ := x - (f : ℚ)
  let n : Int :=
    if r < 1 / 2 then f
    else if r > 1 / 2 then f + 1
    else if f % 2 = 0 then f else f + 1
  (n : ℚ) / scale

/-- `round(q, 2)` as used for `success_rate` and the per-translation
character average. -/
def pyRound2 (q : ℚ) : ℚ := pyRoundTo 2 q

/-- The static allow-list of language codes: the keys of the
`SUPPORTED_LANGUAGES` dict in the source, in order. -/
def SUPPORTED_LANGUAGES : List String :=
  ["af", "sq", "am", "ar", "hy", "az", "bn", "bs",
   "bg", "ca", "zh", "zh-TW", "hr", "cs",
   "da", "fa-AF", "nl", "en", "et", "fa", "tl",
   "fi", "fr", "fr-CA", "ka", "de", "el", "gu",
   "ht", "ha", "he", "hi", "hu", "is", "id", "ga",
   "it", "ja", "kn", "kk", "ko", "lv", "lt", "mk",
   "ms", "ml", "mt", "mr", "mn", "no", "ps",
   "pl", "pt", "pt-PT", "pa", "ro", "ru", "sr",
   "si", "sk", "sl", "so", "es", "es-MX", "sw",
   "sv", "ta", "te", "th", "tr", "uk", "ur", "uz",
   "vi", "cy"]

/-- `isinstance(lang, str) and lang in SUPPORTED_LANGUAGES`
(the code tests `not isinstance(lang, str) or lang not in SUPPORTED_LANGUAGES`). -/
def isSupportedLang (v : Value) : Bool :=
  match v with
  | Value.vStr s => SUPPORTED_LANGUAGES.contains s
  | _ => false

/-- The result dict of `validate_translation_request`:
`{'valid': bool, 'error': str or None}`. -/
structure ValidationResult where
  valid : Bool
  error : Option String

/-- `"Request data must be a valid JSON object"`. -/
def objectMsg : String := "Request data must be a valid JSON object"

/-- The `required_fields` list of the validator. -/
def requiredFields : List String := ["source_language", "target_language", "texts"]

/-- The validator loop `for field in required_fields: if field not in
request_data: ...` — the first missing required key, if any. -/
def findMissingField (l : List (String × Value)) : Option String :=
  requiredFields.find? (fun f => (l.lookup f).isNone)

/-- The message for an unsupported language code, including the preview of
the first ten supported codes, exactly as the f-string renders it. -/
def unsupportedLangMsg (which : String) (v : Value) : String :=
  "Unsupported " ++ which ++ " language: \x27" ++ pyStr v ++ "\x27. Supported: "
    ++ pyRepr (Value.vList ((SUPPORTED_LANGUAGES.take 10).map Value.vStr)) ++ "..."

/-- The validator loop over `texts`: each element must be a string (checked
first) whose UTF-8 encoding is at most 5000 bytes; returns the first
failure message, walking the list in order with its running index. -/
def checkTexts : Nat → List Value → Option String
  | _, [] => none
  | i, t :: ts =>
    match t with
    | Value.vStr s =>
      if s.utf8ByteSize > 5000 then
        some ("Text at index " ++ toString i ++ " exceeds 5000 bytes limit ("
          ++ toString s.utf8ByteSize ++ " bytes)")
      else checkTexts (i + 1) ts
    | _ => some ("Text at index " ++ toString i ++ " must be a string")

/-- The `texts` field checks of the validator: must be a list, non-empty,
at most 100 items, then the per-item loop. -/
def textsChecks (textsV : Value) : ValidationResult :=
  match textsV with
  | Value.vList ts =>
    if ts.isEmpty then ⟨false, some "Field \x27texts\x27 cannot be empty"⟩
    else if ts.length > 100 then
      ⟨false, some ("Too many texts: " ++ toString ts.length
        ++ " (maximum 100 texts per request)")⟩
    else
      match checkTexts 0 ts with
      | some e => ⟨false, some e⟩
      | none => ⟨true, none⟩
  | _ => ⟨false, some "Field \x27texts\x27 must be a list/array"⟩

/-- The checks of the validator that run after the initial
`not request_data or not isinstance(request_data, dict)` test, on the
entries of the dict, in source order: required keys presence, then the
language codes (read by subscript, which after the presence check cannot
fail, so the `getD` defaults are unreachable), then the `texts` checks. -/
def validateDictChecks (l : List (String × Value)) : ValidationResult :=
  match findMissingField l with
  | some f => ⟨false, some ("Missing required field: \x27" ++ f ++ "\x27")⟩
  | none =>
    if !(isSupportedLang ((l.lookup "source_language").getD Value.vNull)) then
      ⟨false, some (unsupportedLangMsg "source"
        ((l.lookup "source_language").getD Value.vNull))⟩
    else if !(isSupportedLang ((l.lookup "target_language").getD Value.vNull)) then
      ⟨false, some (unsupportedLangMsg "target"
        ((l.lookup "target_language").getD Value.vNull))⟩
    else
      textsChecks ((l.lookup "texts").getD Value.vNull)

/-- The entries of a dict value (the non-dict branch is unreachable where
this is used, behind an `isinstance(..., dict)` test). -/
def dictEntries : Value → List (String × Value)
  | Value.vDict l => l
  | _ => []

/-- `validate_translation_request` from the source: first the
`not request_data or not isinstance(request_data, dict)` test (note that an
empty dict is falsy in Python and hits this branch), then the dict checks.
The surrounding `try` of the source cannot be entered exceptionally by any
check, so it is not modelled. -/
def validate_translation_request (request_data : Value) : ValidationResult :=
  if !(pyTruthy request_data) || !(isDictV request_data) then
    ⟨false, some objectMsg⟩
  else
    validateDictChecks (dictEntries request_data)

/-- The response dict of one `translate_client.translate_text` call:
`TranslatedText` plus the optional echoed language codes read with
`response.get(..., fallback)`. -/
structure TransResp where
  TranslatedText : String
  SourceLanguageCode : Option Value
  TargetLanguageCode : Option Value

/-- The external AWS Translate collaborator, abstracted: given the trimmed
text, the source and target language values and the zero-based attempt
number, either a response or a raised exception. -/
def TranslateOracle : Type :=
  String → Value → Value → Nat → Except PyErr TransResp

/-- `max_retries = 3` of the retry loop. -/
def max_retries : Nat := 3

/-- The body of the `while retry_count < max_retries` loop: `used` is the
current `retry_count` (number of calls already made), the second argument
the remaining allowance `max_retries - retry_count`. On failure the count
is incremented and, once it reaches `max_retries`, the last exception is
re-raised (the `time.sleep(0.5 * retry_count)` backoff has no observable
effect in the embedding). Also returns the number of calls made. The
zero-allowance base case is unreachable from `translateWithRetry`. -/
def attemptTranslate (oracle : TranslateOracle) (text : String) (srcL tgtL : Value)
    (used left : Nat) : Except PyErr TransResp × Nat :=
  match left with
  | 0 => (Except.error ⟨"Exception", "retries exhausted"⟩, used)
  | left' + 1 =>
    match oracle text srcL tgtL used with
    | Except.ok r => (Except.ok r, used + 1)
    | Except.error e =>
      if left' = 0 then (Except.error e, used + 1)
      else attemptTranslate oracle text srcL tgtL (used + 1) left' 

/-- The whole retry loop, started with `retry_count = 0`. -/
def translateWithRetry (oracle : TranslateOracle) (text : String) (srcL tgtL : Value) :
    Except PyErr TransResp × Nat :=
  attemptTranslate oracle text srcL tgtL 0 max_retries

/-- One entry appended to the `translations` list, one constructor per dict
shape in the source: `skipped` also carries `translated_text: ''` and
`reason: 'empty_text'`; `error` carries `translated_text: None`; `success`
carries the detected/requested language codes and `character_count`. -/
inductive ItemResult where
  | skipped (original_text : Value) (index : Nat)
  | success (original_text : Value) (translated_text : String) (index : Nat)
      (source_language_detected : Value) (target_language : Value)
      (character_count : Nat)
  | error (original_text : Value) (index : Nat) (error_msg : String)

/-- The `status` field of a translations entry. -/
def ItemResult.status : ItemResult → String
  | ItemResult.skipped _ _ => "skipped"
  | ItemResult.success _ _ _ _ _ _ => "success"
  | ItemResult.error _ _ _ => "error"

/-- The `original_text` field of a translations entry. -/
def ItemResult.originalText : ItemResult → Value
  | ItemResult.skipped t _ => t
  | ItemResult.success t _ _ _ _ _ => t
  | ItemResult.error t _ _ => t

/-- The `index` field of a translations entry. -/
def ItemResult.index : ItemResult → Nat
  | ItemResult.skipped _ i => i
  | ItemResult.success _ _ i _ _ _ => i
  | ItemResult.error _ i _ => i

/-- Length of the translated text of a successful entry, `0` otherwise:
the contribution of the entry to `total_characters`. -/
def ItemResult.charContribution : ItemResult → Nat
  | ItemResult.success _ tt _ _ _ _ => tt.length
  | _ => 0

/-- `'Text too long: {n} bytes (max 5000)'`. -/
def tooLongMsg (n : Nat) : String :=
  "Text too long: " ++ toString n ++ " bytes (max 5000)"

/-- The outcome of one iteration of the per-text loop: the appended entry,
the number of translate calls made, the entry appended to the `errors`
list if any, and whether the over-5000-bytes branch fired (ghost
instrumentation for reachability statements). -/
structure ItemStep where
  item : ItemResult
  calls : Nat
  errEntry : Option String
  tooLongHit : Bool

/-- The per-item work for a truthy string `s`: the
`if not text.strip()` skip, the `len(text.encode(\x27utf-8\x27)) > 5000`
guard recording an error entry, then the retry loop on `text.strip()`,
yielding either a success entry (language codes falling back to the
requested values, `character_count = len(translated_text)`) or an error
entry with the stringified last failure plus an `errors` list line.
Also called for the falsy string `""`, where it produces the same skip
entry as the `if not text` branch. -/
def stepForStr (oracle : TranslateOracle) (srcL tgtL : Value) (i : Nat)
    (s : String) : ItemStep :=
  if pyStrip s = "" then
    ⟨ItemResult.skipped (Value.vStr s) i, 0, none, false⟩
  else if s.utf8ByteSize > 5000 then
    ⟨ItemResult.error (Value.vStr s) i (tooLongMsg s.utf8ByteSize), 0, none, true⟩
  else
    match translateWithRetry oracle (pyStrip s) srcL tgtL with
    | (Except.ok resp, c) =>
      ⟨ItemResult.success (Value.vStr s) resp.TranslatedText i
          (resp.SourceLanguageCode.getD srcL) (resp.TargetLanguageCode.getD tgtL)
          resp.TranslatedText.length,
        c, none, false⟩
    | (Except.error e, c) =>
      ⟨ItemResult.error (Value.vStr s) i e.msg, c,
        some ("Text " ++ toString (i + 1) ++ ": " ++ e.msg), false⟩

/-- One iteration of `for i, text in enumerate(texts)`.
`if not text or not text.strip()` records a skip; `.strip()` on a truthy
non-string raises `AttributeError`, which is outside the per-item `try`
and so escapes the loop (modelled as `Except.error`). Strings are handled
by `stepForStr` (a falsy string takes the first disjunct in the source but
yields the same skip entry `stepForStr` yields for it). -/
def processItem (oracle : TranslateOracle) (srcL tgtL : Value) (i : Nat) (t : Value) :
    Except PyErr ItemStep :=
  if !(pyTruthy t) then
    match t with
    | Value.vStr s => Except.ok (stepForStr oracle srcL tgtL i s)
    | _ => Except.ok ⟨ItemResult.skipped t i, 0, none, false⟩
  else
    match t with
    | Value.vStr s => Except.ok (stepForStr oracle srcL tgtL i s)
    | _ =>
      Except.error ⟨"AttributeError",
        "\x27" ++ pyTypeName t ++ "\x27 object has no attribute \x27strip\x27"⟩

/-- The accumulators of the per-text loop: the `translations` list, the
total number of translate calls, `successful_count`, `failed_count`,
`total_characters`, the `errors` list, and the ghost count of
over-length-branch hits. -/
structure LoopOut where
  items : List ItemResult
  calls : Nat
  successful : Nat
  failed : Nat
  chars : Nat
  errors : List String
  tooLong : Nat

/-- The `successful_count += 1` contribution of one entry. -/
def succDelta : ItemResult → Nat
  | ItemResult.success _ _ _ _ _ _ => 1
  | _ => 0

/-- The `failed_count += 1` contribution of one entry (both the
over-length branch and the per-item `except` branch record an `error`
entry and bump the counter). -/
def failDelta : ItemResult → Nat
  | ItemResult.error _ _ _ => 1
  | _ => 0

/-- `errors.append(...)` of one iteration, when the iteration produced a
line. -/
def pushErr : Option String → List String → List String
  | some e, es => e :: es
  | none, es => es

/-- The whole per-text loop, carried out from index `i`. A skip adds no
counter; both error shapes add `failed_count += 1`; a success adds
`successful_count += 1` and `total_characters += len(translated_text)`.
An escaping exception aborts the loop, carrying the calls already made. -/
def runItems (oracle : TranslateOracle) (srcL tgtL : Value) :
    Nat → List Value → Except (PyErr × Nat) LoopOut
  | _, [] => Except.ok ⟨[], 0, 0, 0, 0, [], 0⟩
  | i, t :: ts =>
    match processItem oracle srcL tgtL i t with
    | Except.error e => Except.error (e, 0)
    | Except.ok st =>
      match runItems oracle srcL tgtL (i + 1) ts with
      | Except.error (e, c) => Except.error (e, st.calls + c)
      | Except.ok out =>
        Except.ok ⟨st.item :: out.items, st.calls + out.calls,
          succDelta st.item + out.successful,
          failDelta st.item + out.failed,
          st.item.charContribution + out.chars,
          pushErr st.errEntry out.errors,
          (if st.tooLongHit then 1 else 0) + out.tooLong⟩

/-- Python `len`/`enumerate` domain for the embedded values: lists
enumerate their items, strings their characters, dicts their keys;
other values raise `TypeError`. -/
def pyElems : Value → Option (List Value)
  | Value.vList l => some l
  | Value.vStr s => some (s.toList.map (fun c => Value.vStr (String.singleton c)))
  | Value.vDict l => some (l.map (fun p => Value.vStr p.1))
  | _ => none

/-- Python `len` on the embedded values. -/
def pyLen (v : Value) : Option Nat := (pyElems v).map List.length

/-- The `request_metadata` block of a translation result. -/
structure RequestMetadata where
  source_language : Value
  target_language : Value
  total_texts : Nat
  successful_translations : Nat
  failed_translations : Nat
  skipped_translations : Nat
  timestamp : String
  translation_id : String
  user_id : String

/-- The `summary` block; `processing_time_per_text_ms` is present (as the
literal `0`) only on the normal path, the exception-path summary omits
the key. -/
structure Summary where
  success_rate : ℚ
  total_characters_translated : Nat
  average_characters_per_translation : ℚ
  processing_time_per_text_ms : Option Nat

/-- The result dict of `perform_translation`. -/
structure PTResult where
  request_metadata : RequestMetadata
  translations : List ItemResult
  summary : Summary
  errors : Option (List String)

/-- Ghost statistics of a `perform_translation` run: translate calls made
and hits of the drivers own over-5000-bytes branch. -/
structure PTStats where
  calls : Nat
  tooLong : Nat

/-- The `try` block of `perform_translation`: subscript the three request
fields (a missing key raises `KeyError`), take `len(texts)` (first used in
a log line before the loop; a non-sized value raises `TypeError`), run the
loop, then aggregate: `success_rate` (0 when `total_texts == 0`),
`average_characters_per_translation` (0 when nothing succeeded),
`skipped_translations` counted over the built list, `errors` replaced by
`None` when empty. -/
def performTry (oracle : TranslateOracle) (rd : Value)
    (translation_id user_id now : String) :
    Except (PyErr × Nat) (PTResult × PTStats) :=
  match dictGet rd "source_language" with
  | none => Except.error (⟨"KeyError", "\x27source_language\x27"⟩, 0)
  | some srcL =>
    match dictGet rd "target_language" with
    | none => Except.error (⟨"KeyError", "\x27target_language\x27"⟩, 0)
    | some tgtL =>
      match dictGet rd "texts" with
      | none => Except.error (⟨"KeyError", "\x27texts\x27"⟩, 0)
      | some textsV =>
        match pyElems textsV with
        | none =>
          Except.error (⟨"TypeError",
            "object of type \x27" ++ pyTypeName textsV ++ "\x27 has no len()"⟩, 0)
        | some elems =>
          match runItems oracle srcL tgtL 0 elems with
          | Except.error ec => Except.error ec
          | Except.ok out =>
            let total_texts := elems.length
            let success_rate : ℚ :=
              if total_texts > 0 then
                pyRound2 ((out.successful : ℚ) / (total_texts : ℚ) * 100)
              else 0
            let avg : ℚ :=
              if out.successful > 0 then
                pyRound2 ((out.chars : ℚ) / (out.successful : ℚ))
              else 0
            Except.ok
              (⟨⟨srcL, tgtL, total_texts, out.successful, out.failed,
                  out.items.countP (fun t => t.status == "skipped"),
                  now, translation_id, user_id⟩,
                out.items,
                ⟨success_rate, out.chars, avg, some 0⟩,
                if out.errors.isEmpty then none else some out.errors⟩,
               ⟨out.calls, out.tooLong⟩)

/-- The `except` block of `perform_translation`: languages fall back to
`'unknown'`, `texts` to `[]`; `len` on a non-sized `texts` value raises
out of the handler itself (propagated as `Except.error`); otherwise one
status-`error` entry per text, zero successes, and a flat summary. -/
def performFallback (rd : Value) (e : PyErr)
    (translation_id user_id now : String) : Except PyErr PTResult :=
  match pyElems (dictGetD rd "texts" (Value.vList [])) with
  | none =>
    Except.error ⟨"TypeError",
      "object of type \x27" ++ pyTypeName (dictGetD rd "texts" (Value.vList []))
        ++ "\x27 has no len()"⟩
  | some elems =>
    Except.ok
      ⟨⟨dictGetD rd "source_language" (Value.vStr "unknown"),
          dictGetD rd "target_language" (Value.vStr "unknown"),
          elems.length, 0, elems.length, 0, now, translation_id, user_id⟩,
        elems.enum.map (fun p =>
          ItemResult.error p.2 p.1 ("Translation service error: " ++ e.msg)),
        ⟨0, 0, 0, none⟩,
        some ["Critical translation error: " ++ e.msg]⟩

/-- `perform_translation`: the `try` body, falling back to the `except`
handler on a raised exception; a failure of the handler itself propagates.
Also returns the ghost statistics (zero over-length hits are attributed to
the fallback path, whose loop makes no translate calls). -/
def perform_translation (oracle : TranslateOracle) (rd : Value)
    (translation_id user_id now : String) :
    Except PyErr (PTResult × PTStats) :=
  match performTry oracle rd translation_id user_id now with
  | Except.ok r => Except.ok r
  | Except.error (e, c) =>
    match performFallback rd e translation_id user_id now with
    | Except.ok res => Except.ok (res, ⟨c, 0⟩)
    | Except.error e2 => Except.error e2

/-- The outcomes of the four best-effort persistence writes of one
invocation, abstracting the S3/DynamoDB collaborators: request object to
the request bucket, metadata row to the translation table, history row to
the user table, result object to the response bucket. An absent bucket or
table configuration makes the corresponding write a no-op, hence `ok`. -/
structure PersistEnv where
  saveRequest : Except PyErr Unit
  saveMetadata : Except PyErr Unit
  saveHistory : Except PyErr Unit
  saveResponse : Except PyErr Unit

/-- A `try: ... except: pass`-style wrapper: the outcome of a write is
observed and discarded, success or failure. -/
def ignoreFailure : Except PyErr Unit → Unit
  | Except.ok _ => ()
  | Except.error _ => ()

/-- `save_request_to_s3`: logs and re-raises on failure, so the outcome is
passed through to the caller (payload and key are not observable and are
abstracted into the environment). -/
def save_request_to_s3 (env : PersistEnv) : Except PyErr Unit := env.saveRequest

/-- `save_translation_result`: logs and re-raises on failure. -/
def save_translation_result (env : PersistEnv) : Except PyErr Unit := env.saveResponse

/-- `save_translation_metadata`: catches every failure internally and only
logs it, so the caller observes nothing. -/
def save_translation_metadata (env : PersistEnv) : Unit :=
  ignoreFailure env.saveMetadata

/-- `save_user_translation_history`: catches every failure internally. -/
def save_user_translation_history (env : PersistEnv) : Unit :=
  ignoreFailure env.saveHistory

/-- The DynamoDB block of the handlers: metadata row always, history row
only for a non-anonymous caller; the blocks own `try` swallows any
failure (the inner saves already swallow theirs). -/
def metadataBlock (env : PersistEnv) (user_id : String) : Unit :=
  let _ := save_translation_metadata env
  if user_id != "anonymous" then save_user_translation_history env else ()

/-- An API Gateway response. The source JSON-serializes `body_data` with
`json.dumps`; the body is kept structured here, two responses of the
source are equal exactly when the structured bodies are. -/
structure ApiResponse where
  statusCode : Nat
  headers : List (String × String)
  body : Value

/-- `create_api_gateway_response`, with the exact header block of the
source. -/
def create_api_gateway_response (status_code : Nat) (body_data : Value) : ApiResponse :=
  ⟨status_code,
   [("Content-Type", "application/json"),
    ("Access-Control-Allow-Origin", "*"),
    ("Access-Control-Allow-Headers",
      "Content-Type,X-Amz-Date,Authorization,X-Api-Key,X-Amz-Security-Token,X-Amz-User-Agent"),
    ("Access-Control-Allow-Methods", "GET,POST,OPTIONS,PUT,DELETE"),
    ("Access-Control-Allow-Credentials", "false"),
    ("Access-Control-Max-Age", "86400"),
    ("Cache-Control", "no-cache, no-store, must-revalidate"),
    ("X-Content-Type-Options", "nosniff"),
    ("X-Frame-Options", "DENY"),
    ("X-XSS-Protection", "1; mode=block")],
   body_data⟩

/-- A translations entry rendered back to the dict the source appends. -/
def itemValue : ItemResult → Value
  | ItemResult.skipped t i =>
    Value.vDict [("original_text", t), ("translated_text", Value.vStr ""),
      ("index", Value.vInt i), ("status", Value.vStr "skipped"),
      ("reason", Value.vStr "empty_text")]
  | ItemResult.success t tt i d g cc =>
    Value.vDict [("original_text", t), ("translated_text", Value.vStr tt),
      ("index", Value.vInt i), ("status", Value.vStr "success"),
      ("source_language_detected", d), ("target_language", g),
      ("character_count", Value.vInt cc)]
  | ItemResult.error t i e =>
    Value.vDict [("original_text", t), ("translated_text", Value.vNull),
      ("index", Value.vInt i), ("status", Value.vStr "error"),
      ("error", Value.vStr e)]

/-- The `request_metadata` dict. -/
def metadataValue (m : RequestMetadata) : Value :=
  Value.vDict [("source_language", m.source_language),
    ("target_language", m.target_language),
    ("total_texts", Value.vInt m.total_texts),
    ("successful_translations", Value.vInt m.successful_translations),
    ("failed_translations", Value.vInt m.failed_translations),
    ("skipped_translations", Value.vInt m.skipped_translations),
    ("timestamp", Value.vStr m.timestamp),
    ("translation_id", Value.vStr m.translation_id),
    ("user_id", Value.vStr m.user_id)]

/-- The `summary` dict; the exception path omits
`processing_time_per_text_ms`. -/
def summaryValue (s : Summary) : Value :=
  Value.vDict ([("success_rate", Value.vRat s.success_rate),
    ("total_characters_translated", Value.vInt s.total_characters_translated),
    ("average_characters_per_translation",
      Value.vRat s.average_characters_per_translation)] ++
    (match s.processing_time_per_text_ms with
     | some n => [("processing_time_per_text_ms", Value.vInt n)]
     | none => []))

/-- The entries of the result dict of `perform_translation`. -/
def ptResultEntries (r : PTResult) : List (String × Value) :=
  [("request_metadata", metadataValue r.request_metadata),
   ("translations", Value.vList (r.translations.map itemValue)),
   ("summary", summaryValue r.summary),
   ("errors",
     match r.errors with
     | some l => Value.vList (l.map Value.vStr)
     | none => Value.vNull)]

/-- The `processing_metrics` dict the API handler adds to the result
before returning it (`processing_time_seconds` is a wall-clock reading,
threaded as the parameter `ptime`). -/
def processingMetricsValue (ptime : ℚ) (request_id translation_id user_id now : String) :
    Value :=
  Value.vDict [("processing_time_seconds", Value.vRat (pyRoundTo 3 ptime)),
    ("request_id", Value.vStr request_id),
    ("translation_id", Value.vStr translation_id),
    ("user_id", Value.vStr user_id),
    ("timestamp", Value.vStr now)]

/-- The effects of one handler run that the claims observe: whether
`perform_translation` ran, and how many translate calls were made. -/
structure Effects where
  driverInvoked : Bool
  translateCalls : Nat

/-- `handle_api_gateway_event`. `requestData` is the result of
`parse_request_body` (`Value.vNull` standing for Python `None`; JSON and
base64 decoding are outside the embedding). In source order: the CORS
preflight short-circuit; the `if not request_data` 400; the validation
400 (body `{error, message, request_id}`); the call-site-wrapped request
save; the driver; the metrics attachment; the wrapped DynamoDB block; the
wrapped response save; the 200. A propagated driver exception is caught
by the handlers own `except`, yielding the 500 body with a timestamp. -/
def handle_api_gateway_event (oracle : TranslateOracle) (env : PersistEnv)
    (httpMethod : Option String) (requestData : Value)
    (request_id translation_id user_id now : String) (ptime : ℚ) :
    ApiResponse × Effects :=
  if httpMethod = some "OPTIONS" then
    (create_api_gateway_response 200
      (Value.vDict [("message", Value.vStr "CORS preflight successful"),
        ("supported_methods", Value.vList [Value.vStr "POST", Value.vStr "OPTIONS"]),
        ("supported_headers",
          Value.vList [Value.vStr "Content-Type", Value.vStr "Authorization"])]),
     ⟨false, 0⟩)
  else if !(pyTruthy requestData) then
    (create_api_gateway_response 400
      (Value.vDict [("error", Value.vBool true),
        ("message", Value.vStr "Request body is required and must be valid JSON"),
        ("example", Value.vDict [("source_language", Value.vStr "en"),
          ("target_language", Value.vStr "es"),
          ("texts", Value.vList [Value.vStr "Hello, world!",
            Value.vStr "How are you?"])])]),
     ⟨false, 0⟩)
  else
    let v := validate_translation_request requestData
    if v.valid = false then
      (create_api_gateway_response 400
        (Value.vDict [("error", Value.vBool true),
          ("message", Value.vStr (v.error.getD "")),
          ("request_id", Value.vStr request_id)]),
       ⟨false, 0⟩)
    else
      let _ := ignoreFailure (save_request_to_s3 env)
      match perform_translation oracle requestData translation_id user_id now with
      | Except.error e =>
        (create_api_gateway_response 500
          (Value.vDict [("error", Value.vBool true),
            ("message", Value.vStr ("Error processing request: " ++ e.msg)),
            ("request_id", Value.vStr request_id),
            ("timestamp", Value.vStr now)]),
         ⟨true, 0⟩)
      | Except.ok (result, stats) =>
        let body := Value.vDict (ptResultEntries result ++
          [("processing_metrics",
            processingMetricsValue ptime request_id translation_id user_id now)])
        let _ := metadataBlock env user_id
        let _ := ignoreFailure (save_translation_result env)
        (create_api_gateway_response 200 body, ⟨true, stats.calls⟩)

/-- `handle_direct_invocation`: the event itself is the request; no
persistence at all on this path. The source JSON-serializes the body
dict; it is kept structured. -/
def handle_direct_invocation (oracle : TranslateOracle) (event : Value)
    (translation_id now : String) : Value :=
  let v := validate_translation_request event
  if v.valid = false then
    Value.vDict [("statusCode", Value.vInt 400),
      ("body", Value.vDict [("error", Value.vBool true),
        ("message", Value.vStr (v.error.getD ""))])]
  else
    match perform_translation oracle event translation_id "direct" now with
    | Except.error e =>
      Value.vDict [("statusCode", Value.vInt 500),
        ("body", Value.vDict [("error", Value.vBool true),
          ("message",
            Value.vStr ("Error processing direct invocation: " ++ e.msg))])]
    | Except.ok (result, _) =>
      Value.vDict [("statusCode", Value.vInt 200),
        ("body", Value.vDict [("message",
            Value.vStr "Translation completed successfully"),
          ("translation_result", Value.vDict (ptResultEntries result))])]

/-- Python `needle in container` for the shapes `process_s3_file` can
meet: key membership for dicts, element membership for lists, substring
for strings; `TypeError` otherwise. -/
def pyContains (needle : String) (v : Value) : Option Bool :=
  match v with
  | Value.vDict l => some ((l.lookup needle).isSome)
  | Value.vList l =>
    some (l.any (fun x => match x with | Value.vStr s => s == needle | _ => false))
  | Value.vStr s => some ((s.splitOn needle).length > 1)
  | _ => none

/-- The per-file error dict of the outer `except` of `process_s3_file`. -/
def s3FileErrorValue (key : String) (e : PyErr) : Value :=
  Value.vDict [("original_file", Value.vStr key),
    ("status", Value.vStr "error"),
    ("error", Value.vStr e.msg),
    ("error_type", Value.vStr e.ty)]

/-- `process_s3_file`. The S3 download and JSON parse are abstracted:
`fileData` is the parsed object content, `s3MetaUserId` the optional
`user-id` entry of the S3 object metadata. The claims exercise
dict-shaped file contents; for a wrapped file the inner `metadata` block
is read with `.get` chains defaulting to `'anonymous'` (non-string user
ids, which the source would carry along as-is, are rendered with `str`).
After a successful translation the metadata block (source lines 863-880)
runs with its failures swallowed by its own `except`; then the
`complete_result` dict (lines 885-898) is built, and its
`lambda_request_id` entry (line 890) evaluates the name `context`, which
is not a parameter of `process_s3_file`, not a module global and not
otherwise bound in scope: Python raises
`NameError: name 'context' is not defined`, which escapes to the outer
`except`. The `save_translation_result` call (line 900) and the success
record (lines 902-911) are therefore unreachable: every file that passes
validation and translation yields the per-file error record. The
`result_key` f-string (line 883) and the `processing_metrics` attachment
(lines 856-861) run before the raise but have no observable effect on
the returned record, so they are elided. -/
def process_s3_file (oracle : TranslateOracle) (env : PersistEnv)
    (fileData : Value) (s3MetaUserId : Option String) (key : String)
    (translation_id now : String) : Value :=
  let step : Except PyErr Value :=
    match pyContains "request_data" fileData with
    | none =>
      Except.error ⟨"TypeError",
        "argument of type \x27" ++ pyTypeName fileData ++ "\x27 is not iterable"⟩
    | some b =>
      let request_data :=
        if b then dictGetD fileData "request_data" Value.vNull else fileData
      let user_id :=
        if b then
          match dictGet (dictGetD fileData "metadata" (Value.vDict [])) "user_id" with
          | some (Value.vStr u) => u
          | some u => pyStr u
          | none => "anonymous"
        else s3MetaUserId.getD "anonymous"
      let v := validate_translation_request request_data
      if v.valid = false then
        Except.error ⟨"ValueError", v.error.getD ""⟩
      else
        match perform_translation oracle request_data translation_id user_id now with
        | Except.error e => Except.error e
        | Except.ok (_result, _stats) =>
          let _ := metadataBlock env user_id
          Except.error ⟨"NameError", "name \x27context\x27 is not defined"⟩
  match step with
  | Except.ok v => v
  | Except.error e => s3FileErrorValue key e

/-! ### Lemmas about the validator -/

/-- An element the per-item validator loop accepts: a string of at most
5000 UTF-8 bytes. -/
def goodTextB : Value → Bool
  | Value.vStr s => s.utf8ByteSize ≤ 5000
  | _ => false

theorem checkTexts_eq_none_iff (i : Nat) (ts : List Value) :
    checkTexts i ts = none ↔ ∀ t ∈ ts, goodTextB t = true := by
  induction ts generalizing i with
  | nil => simp [checkTexts]
  | cons t ts ih =>
    rw [List.forall_mem_cons]
    cases t
    case vStr s =>
      simp only [checkTexts]
      by_cases h : s.utf8ByteSize > 5000
      · rw [if_pos h]
        constructor
        · intro hc; simp at hc
        · intro hall
          exfalso
          have := hall.1
          simp [goodTextB] at this
          omega
      · rw [if_neg h, ih (i + 1)]
        simp [goodTextB]
        omega
    all_goals
      simp only [checkTexts]
      constructor
      · intro hc; simp at hc
      · intro hall
        exfalso
        have := hall.1
        simp [goodTextB] at this

theorem validate_valid_elim {rd : Value}
    (h : (validate_translation_request rd).valid = true) :
    ∃ l srcL tgtL ts,
      rd = Value.vDict l ∧
      l.lookup "source_language" = some srcL ∧
      l.lookup "target_language" = some tgtL ∧
      l.lookup "texts" = some (Value.vList ts) ∧
      isSupportedLang srcL = true ∧ isSupportedLang tgtL = true ∧
      ts ≠ [] ∧ ts.length ≤ 100 ∧ checkTexts 0 ts = none := by
  cases rd
  case vDict l =>
    by_cases hemp : l.isEmpty
    · simp [validate_translation_request, pyTruthy, hemp] at h
    · have heq : l.isEmpty = false := by simpa using hemp
      simp only [validate_translation_request, pyTruthy, isDictV, heq, dictEntries,
        Bool.not_false, Bool.not_true, Bool.or_false, if_false] at h
      refine ⟨l, ?_⟩
      cases hm : findMissingField l with
      | some f => simp [validateDictChecks, hm] at h
      | none =>
        have hall : ∀ f ∈ requiredFields, ¬ ((l.lookup f).isNone = true) :=
          List.find?_eq_none.mp hm
        have hs : (l.lookup "source_language").isSome = true := by
          have := hall "source_language" (by simp [requiredFields])
          cases hx : l.lookup "source_language" <;> simp [hx] at this ⊢
        have htg : (l.lookup "target_language").isSome = true := by
          have := hall "target_language" (by simp [requiredFields])
          cases hx : l.lookup "target_language" <;> simp [hx] at this ⊢
        have htx : (l.lookup "texts").isSome = true := by
          have := hall "texts" (by simp [requiredFields])
          cases hx : l.lookup "texts" <;> simp [hx] at this ⊢
        obtain ⟨srcL, hsrc⟩ := Option.isSome_iff_exists.mp hs
        obtain ⟨tgtL, htgt⟩ := Option.isSome_iff_exists.mp htg
        obtain ⟨textsV, htexts⟩ := Option.isSome_iff_exists.mp htx
        simp only [validateDictChecks, hm, hsrc, htgt, htexts, Option.getD_some] at h
        by_cases hsup1 : isSupportedLang srcL = true
        · by_cases hsup2 : isSupportedLang tgtL = true
          · rw [hsup1, hsup2] at h
            simp only [Bool.not_true, Bool.false_eq_true, if_false] at h
            cases textsV with
            | vList ts =>
              refine ⟨srcL, tgtL, ts, rfl, hsrc, htgt, htexts, hsup1, hsup2, ?_⟩
              by_cases hne : ts.isEmpty
              · simp [textsChecks, hne] at h
              · by_cases hlen : ts.length > 100
                · simp [textsChecks, hne, hlen] at h
                · cases hct : checkTexts 0 ts with
                  | some e => simp [textsChecks, hne, hlen, hct] at h
                  | none =>
                    exact ⟨by simpa using hne, by omega, rfl⟩
            | vNull => simp [textsChecks] at h
            | vBool b => simp [textsChecks] at h
            | vInt n => simp [textsChecks] at h
            | vStr s => simp [textsChecks] at h
            | vRat q => simp [textsChecks] at h
            | vDict d => simp [textsChecks] at h
          · have h2 : isSupportedLang tgtL = false := by simpa using hsup2
            rw [hsup1, h2] at h
            simp at h
        · have h1 : isSupportedLang srcL = false := by simpa using hsup1
          rw [h1] at h
          simp at h
  all_goals simp [validate_translation_request, isDictV] at h

/-! ### Lemmas about the translation driver -/

theorem attemptTranslate_calls_le (oracle : TranslateOracle) (text : String)
    (srcL tgtL : Value) (used left : Nat) :
    (attemptTranslate oracle text srcL tgtL used left).2 ≤ used + left := by
  induction left generalizing used with
  | zero => simp [attemptTranslate]
  | succ left ih =>
    unfold attemptTranslate
    cases oracle text srcL tgtL used with
    | ok r =>
      show (Except.ok r, used + 1).2 ≤ used + (left + 1)
      show used + 1 ≤ used + (left + 1)
      omega
    | error e =>
      show (if left = 0 then (Except.error e, used + 1)
        else attemptTranslate oracle text srcL tgtL (used + 1) left).2 ≤ used + (left + 1)
      by_cases hl : left = 0
      · rw [if_pos hl]
        show used + 1 ≤ used + (left + 1)
        omega
      · rw [if_neg hl]
        have h2 := ih (used + 1)
        omega

theorem translateWithRetry_calls_le (oracle : TranslateOracle) (text : String)
    (srcL tgtL : Value) :
    (translateWithRetry oracle text srcL tgtL).2 ≤ 3 := by
  have := attemptTranslate_calls_le oracle text srcL tgtL 0 max_retries
  simpa [translateWithRetry, max_retries] using this

theorem translateWithRetry_all_fail (oracle : TranslateOracle) (text : String)
    (srcL tgtL : Value) (e0 e1 e2 : PyErr)
    (h0 : oracle text srcL tgtL 0 = Except.error e0)
    (h1 : oracle text srcL tgtL 1 = Except.error e1)
    (h2 : oracle text srcL tgtL 2 = Except.error e2) :
    translateWithRetry oracle text srcL tgtL = (Except.error e2, 3) := by
  show attemptTranslate oracle text srcL tgtL 0 max_retries = (Except.error e2, 3)
  have s1 : attemptTranslate oracle text srcL tgtL 0 3
      = attemptTranslate oracle text srcL tgtL 1 2 := by
    conv_lhs => unfold attemptTranslate
    rw [h0]
    rfl
  have s2 : attemptTranslate oracle text srcL tgtL 1 2
      = attemptTranslate oracle text srcL tgtL 2 1 := by
    conv_lhs => unfold attemptTranslate
    rw [h1]
    rfl
  have s3 : attemptTranslate oracle text srcL tgtL 2 1 = (Except.error e2, 3) := by
    unfold attemptTranslate
    rw [h2]
    rfl
  show attemptTranslate oracle text srcL tgtL 0 3 = (Except.error e2, 3)
  rw [s1, s2, s3]

theorem translateWithRetry_first_ok (oracle : TranslateOracle) (text : String)
    (srcL tgtL : Value) (r : TransResp)
    (h0 : oracle text srcL tgtL 0 = Except.ok r) :
    translateWithRetry oracle text srcL tgtL = (Except.ok r, 1) := by
  show attemptTranslate oracle text srcL tgtL 0 max_retries = (Except.ok r, 1)
  show attemptTranslate oracle text srcL tgtL 0 3 = (Except.ok r, 1)
  unfold attemptTranslate
  rw [h0]

theorem processItem_ok_origin (oracle : TranslateOracle) (srcL tgtL : Value)
    (i : Nat) (t : Value) (st : ItemStep)
    (h : processItem oracle srcL tgtL i t = Except.ok st) :
    st.item.originalText = t ∧ st.item.index = i := by
  have base : ∀ s : String, st = stepForStr oracle srcL tgtL i s →
      st.item.originalText = Value.vStr s ∧ st.item.index = i := by
    intro s hst
    unfold stepForStr at hst
    split at hst
    · subst hst; exact ⟨rfl, rfl⟩
    · split at hst
      · subst hst; exact ⟨rfl, rfl⟩
      · split at hst
        · subst hst; exact ⟨rfl, rfl⟩
        · subst hst; exact ⟨rfl, rfl⟩
  unfold processItem at h
  split at h
  · split at h
    · exact base _ (by cases h; rfl)
    all_goals (cases h; exact ⟨rfl, rfl⟩)
  · split at h
    · exact base _ (by cases h; rfl)
    all_goals cases h

theorem processItem_str_ok (oracle : TranslateOracle) (srcL tgtL : Value)
    (i : Nat) (s : String) :
    processItem oracle srcL tgtL i (Value.vStr s) =
      Except.ok (stepForStr oracle srcL tgtL i s) := by
  unfold processItem
  split
  · rfl
  · rfl

theorem stepForStr_small_no_tooLong (oracle : TranslateOracle) (srcL tgtL : Value)
    (i : Nat) (s : String) (hsz : s.utf8ByteSize ≤ 5000) :
    (stepForStr oracle srcL tgtL i s).tooLongHit = false := by
  unfold stepForStr
  split
  · rfl
  · rw [if_neg (by omega : ¬ s.utf8ByteSize > 5000)]
    split
    · rfl
    · rfl

theorem stepForStr_nonblank_not_skipped (oracle : TranslateOracle)
    (srcL tgtL : Value) (i : Nat) (s : String) (hb : pyStrip s ≠ "") :
    (stepForStr oracle srcL tgtL i s).item.status ≠ "skipped" := by
  unfold stepForStr
  rw [if_neg hb]
  split
  · simp [ItemResult.status]
  · split
    · simp [ItemResult.status]
    · simp [ItemResult.status]

theorem stepForStr_all_fail (oracle : TranslateOracle) (srcL tgtL : Value)
    (i : Nat) (s : String) (e0 e1 e2 : PyErr)
    (hb : pyStrip s ≠ "") (hsz : s.utf8ByteSize ≤ 5000)
    (h0 : oracle (pyStrip s) srcL tgtL 0 = Except.error e0)
    (h1 : oracle (pyStrip s) srcL tgtL 1 = Except.error e1)
    (h2 : oracle (pyStrip s) srcL tgtL 2 = Except.error e2) :
    stepForStr oracle srcL tgtL i s =
      ⟨ItemResult.error (Value.vStr s) i e2.msg, 3,
        some ("Text " ++ toString (i + 1) ++ ": " ++ e2.msg), false⟩ := by
  unfold stepForStr
  rw [if_neg hb, if_neg (by omega : ¬ s.utf8ByteSize > 5000),
    translateWithRetry_all_fail oracle (pyStrip s) srcL tgtL e0 e1 e2 h0 h1 h2]

theorem runItems_ok_facts (oracle : TranslateOracle) (srcL tgtL : Value) :
    ∀ (ts : List Value) (i : Nat) (out : LoopOut),
    runItems oracle srcL tgtL i ts = Except.ok out →
    out.items.length = ts.length ∧
    out.successful = out.items.countP (fun x => x.status == "success") ∧
    out.failed = out.items.countP (fun x => x.status == "error") ∧
    out.chars = (out.items.map ItemResult.charContribution).sum ∧
    (∀ j t, ts[j]? = some t →
      ∃ st, processItem oracle srcL tgtL (i + j) t = Except.ok st ∧
        out.items[j]? = some st.item) := by
  intro ts
  induction ts with
  | nil =>
    intro i out h
    simp only [runItems] at h
    cases h
    simp
  | cons t ts ih =>
    intro i out h
    unfold runItems at h
    cases hpi : processItem oracle srcL tgtL i t with
    | error e => rw [hpi] at h; simp at h
    | ok st =>
      rw [hpi] at h
      cases hrest : runItems oracle srcL tgtL (i + 1) ts with
      | error p =>
        rw [hrest] at h
        obtain ⟨e, c⟩ := p
        simp at h
      | ok rest =>
        rw [hrest] at h
        simp only [Except.ok.injEq] at h
        obtain ⟨hlen, hsc, hfc, hch, hidx⟩ := ih (i + 1) rest hrest
        subst h
        refine ⟨?_, ?_, ?_, ?_, ?_⟩
        · simp [hlen]
        · cases hst : st.item with
          | success a b c d e f =>
            simp only [List.countP_cons, succDelta, hsc,
              show ((ItemResult.success a b c d e f).status == "success") = true from rfl,
              Bool.false_eq_true, eq_self_iff_true, if_true, if_false]
            omega
          | skipped a b =>
            simp only [List.countP_cons, succDelta, hsc,
              show ((ItemResult.skipped a b).status == "success") = false from rfl,
              Bool.false_eq_true, eq_self_iff_true, if_true, if_false]
            omega
          | error a b c =>
            simp only [List.countP_cons, succDelta, hsc,
              show ((ItemResult.error a b c).status == "success") = false from rfl,
              Bool.false_eq_true, eq_self_iff_true, if_true, if_false]
            omega
        · cases hst : st.item with
          | success a b c d e f =>
            simp only [List.countP_cons, failDelta, hfc,
              show ((ItemResult.success a b c d e f).status == "error") = false from rfl,
              Bool.false_eq_true, eq_self_iff_true, if_true, if_false]
            omega
          | skipped a b =>
            simp only [List.countP_cons, failDelta, hfc,
              show ((ItemResult.skipped a b).status == "error") = false from rfl,
              Bool.false_eq_true, eq_self_iff_true, if_true, if_false]
            omega
          | error a b c =>
            simp only [List.countP_cons, failDelta, hfc,
              show ((ItemResult.error a b c).status == "error") = true from rfl,
              Bool.false_eq_true, eq_self_iff_true, if_true, if_false]
            omega
        · simp only [List.map_cons, List.sum_cons, hch]
        · intro j u hj
          cases j with
          | zero =>
            simp only [List.getElem?_cons_zero, Option.some.injEq] at hj
            subst hj
            exact ⟨st, by simpa using hpi, by simp⟩
          | succ j =>
            simp only [List.getElem?_cons_succ] at hj
            obtain ⟨st2, hst2, hget⟩ := hidx j u hj
            refine ⟨st2, ?_, by simpa using hget⟩
            have : i + (j + 1) = i + 1 + j := by omega
            rw [this]
            exact hst2

theorem runItems_tooLong_zero (oracle : TranslateOracle) (srcL tgtL : Value) :
    ∀ (ts : List Value) (i : Nat) (out : LoopOut),
    runItems oracle srcL tgtL i ts = Except.ok out →
    (∀ t ∈ ts, ∀ i' st, processItem oracle srcL tgtL i' t = Except.ok st →
      st.tooLongHit = false) →
    out.tooLong = 0 := by
  intro ts
  induction ts with
  | nil =>
    intro i out h _
    simp only [runItems] at h
    cases h
    rfl
  | cons t ts ih =>
    intro i out h hall
    unfold runItems at h
    cases hpi : processItem oracle srcL tgtL i t with
    | error e => rw [hpi] at h; simp at h
    | ok st =>
      rw [hpi] at h
      cases hrest : runItems oracle srcL tgtL (i + 1) ts with
      | error p =>
        rw [hrest] at h
        obtain ⟨e, c⟩ := p
        simp at h
      | ok rest =>
        rw [hrest] at h
        simp only [Except.ok.injEq] at h
        subst h
        have h1 : st.tooLongHit = false :=
          hall t (List.mem_cons_self _ _) i st hpi
        have h2 : rest.tooLong = 0 :=
          ih (i + 1) rest hrest (fun u hu => hall u (List.mem_cons_of_mem _ hu))
        simp [h1, h2]

theorem runItems_ok_of_allStr (oracle : TranslateOracle) (srcL tgtL : Value) :
    ∀ (ts : List Value) (i : Nat),
    (∀ t ∈ ts, ∃ s, t = Value.vStr s) →
    ∃ out, runItems oracle srcL tgtL i ts = Except.ok out := by
  intro ts
  induction ts with
  | nil => intro i _; exact ⟨_, rfl⟩
  | cons t ts ih =>
    intro i hall
    obtain ⟨s, hs⟩ := hall t (List.mem_cons_self _ _)
    subst hs
    obtain ⟨rest, hrest⟩ := ih (i + 1) (fun u hu => hall u (List.mem_cons_of_mem _ hu))
    cases hr : runItems oracle srcL tgtL i (Value.vStr s :: ts) with
    | ok out => exact ⟨out, rfl⟩
    | error p =>
      exfalso
      unfold runItems at hr
      rw [processItem_str_ok oracle srcL tgtL i s, hrest] at hr
      simp at hr

theorem countP_status_partition (items : List ItemResult) :
    items.countP (fun x => x.status == "success")
      + items.countP (fun x => x.status == "error")
      + items.countP (fun x => x.status == "skipped") = items.length := by
  induction items with
  | nil => simp
  | cons x items ih =>
    cases x with
    | skipped a b =>
      simp only [List.countP_cons,
        show ((ItemResult.skipped a b).status == "success") = false from rfl,
        show ((ItemResult.skipped a b).status == "error") = false from rfl,
        show ((ItemResult.skipped a b).status == "skipped") = true from rfl,
        Bool.false_eq_true, eq_self_iff_true, if_true, if_false, List.length_cons]
      omega
    | success a b c d e f =>
      simp only [List.countP_cons,
        show ((ItemResult.success a b c d e f).status == "success") = true from rfl,
        show ((ItemResult.success a b c d e f).status == "error") = false from rfl,
        show ((ItemResult.success a b c d e f).status == "skipped") = false from rfl,
        Bool.false_eq_true, eq_self_iff_true, if_true, if_false, List.length_cons]
      omega
    | error a b c =>
      simp only [List.countP_cons,
        show ((ItemResult.error a b c).status == "success") = false from rfl,
        show ((ItemResult.error a b c).status == "error") = true from rfl,
        show ((ItemResult.error a b c).status == "skipped") = false from rfl,
        Bool.false_eq_true, eq_self_iff_true, if_true, if_false, List.length_cons]
      omega

theorem perform_validated (oracle : TranslateOracle) (rd : Value)
    (tid uid now : String)
    (hv : (validate_translation_request rd).valid = true) :
    ∃ l srcL tgtL ts out,
      rd = Value.vDict l ∧
      l.lookup "source_language" = some srcL ∧
      l.lookup "target_language" = some tgtL ∧
      l.lookup "texts" = some (Value.vList ts) ∧
      runItems oracle srcL tgtL 0 ts = Except.ok out ∧
      (∀ t ∈ ts, ∃ s, t = Value.vStr s ∧ s.utf8ByteSize ≤ 5000) ∧
      perform_translation oracle rd tid uid now = Except.ok
        (⟨⟨srcL, tgtL, ts.length, out.successful, out.failed,
            out.items.countP (fun t => t.status == "skipped"), now, tid, uid⟩,
          out.items,
          ⟨(if ts.length > 0 then
              pyRound2 ((out.successful : ℚ) / (ts.length : ℚ) * 100) else 0),
            out.chars,
            (if out.successful > 0 then
              pyRound2 ((out.chars : ℚ) / (out.successful : ℚ)) else 0),
            some 0⟩,
          (if out.errors.isEmpty then none else some out.errors)⟩,
         ⟨out.calls, out.tooLong⟩) := by
  obtain ⟨l, srcL, tgtL, ts, rfl, hsrc, htgt, htexts, hsup1, hsup2, hne, hlen, hct⟩ :=
    validate_valid_elim hv
  have hgood : ∀ t ∈ ts, ∃ s, t = Value.vStr s ∧ s.utf8ByteSize ≤ 5000 := by
    intro t ht
    have hg := (checkTexts_eq_none_iff 0 ts).mp hct t ht
    cases t
    case vStr s =>
      refine ⟨s, rfl, ?_⟩
      simpa [goodTextB] using hg
    all_goals simp [goodTextB] at hg
  obtain ⟨out, hout⟩ := runItems_ok_of_allStr oracle srcL tgtL ts 0
    (fun t ht => ((hgood t ht).imp (fun s hs => hs.1)))
  refine ⟨l, srcL, tgtL, ts, out, rfl, hsrc, htgt, htexts, hout, hgood, ?_⟩
  unfold perform_translation performTry
  simp only [dictGet]
  rw [hsrc, htgt, htexts]
  simp only [pyElems]
  rw [hout]

/-! ### Concrete fixtures for witnesses and counterexamples -/

/-- A stub translate collaborator that succeeds immediately with a fixed
translation and no echoed language codes. -/
def sampleOracle : TranslateOracle :=
  fun _ _ _ _ => Except.ok ⟨"hola", none, none⟩

/-- A translate collaborator that fails on every attempt. -/
def failingOracle : TranslateOracle :=
  fun _ _ _ _ => Except.error ⟨"Exception", "service down"⟩

/-- A small valid request. -/
def sampleReq : Value :=
  Value.vDict [("source_language", Value.vStr "en"),
    ("target_language", Value.vStr "es"),
    ("texts", Value.vList [Value.vStr "Hello"])]

/-- A valid request whose single text is non-empty but whitespace-only. -/
def blankReq : Value :=
  Value.vDict [("source_language", Value.vStr "en"),
    ("target_language", Value.vStr "es"),
    ("texts", Value.vList [Value.vStr " "])]

/-- All four persistence writes succeed. -/
def envOk : PersistEnv := ⟨Except.ok (), Except.ok (), Except.ok (), Except.ok ()⟩

/-- The response-bucket write fails, the rest succeed. -/
def envRespFail : PersistEnv :=
  ⟨Except.ok (), Except.ok (), Except.ok (),
    Except.error ⟨"Exception", "Simulated S3 failure"⟩⟩

/-! ### Claim C1 -/

/-- C1 counterexample: the claim asserts that when all texts are non-empty
no item is skipped, but the code skips whitespace-only texts: the request
with the single text `" "` passes validation, its text is non-empty (so
truthy), yet the driver reports one skipped item and zero
successful/failed ones. -/
theorem c1_counterexample :
    (validate_translation_request blankReq).valid = true ∧
    pyTruthy (Value.vStr " ") = true ∧ (" " : String) ≠ "" ∧
    ∃ res stats,
      perform_translation sampleOracle blankReq "tid" "uid" "now"
        = Except.ok (res, stats) ∧
      res.request_metadata.skipped_translations = 1 ∧
      res.request_metadata.successful_translations = 0 ∧
      res.request_metadata.failed_translations = 0 := by
  refine ⟨rfl, rfl, by decide, ?_⟩
  exact ⟨_, _, rfl, rfl, rfl, rfl⟩

/-- C1 (amended): for every request that passes validation with N texts,
the driver returns a result whose translations list has length N and whose
counters satisfy successful + failed + skipped = N; when moreover every
text is non-blank (non-empty after stripping whitespace), skipped is 0 and
successful + failed = N. -/
theorem c1_amended (oracle : TranslateOracle) (rd : Value) (ts : List Value)
    (tid uid now : String)
    (hv : (validate_translation_request rd).valid = true)
    (ht : dictGet rd "texts" = some (Value.vList ts)) :
    ∃ res stats,
      perform_translation oracle rd tid uid now = Except.ok (res, stats) ∧
      res.translations.length = ts.length ∧
      res.request_metadata.successful_translations
        + res.request_metadata.failed_translations
        + res.request_metadata.skipped_translations = ts.length ∧
      ((∀ t ∈ ts, ∀ s, t = Value.vStr s → pyStrip s ≠ "") →
        res.request_metadata.skipped_translations = 0 ∧
        res.request_metadata.successful_translations
          + res.request_metadata.failed_translations = ts.length) := by
  obtain ⟨l, srcL, tgtL, ts2, out, hrd, hsrc, htgt, htexts, hrun, hgood, hperf⟩ :=
    perform_validated oracle rd tid uid now hv
  have hts : ts = ts2 := by
    rw [hrd] at ht
    simp only [dictGet] at ht
    rw [htexts] at ht
    injection ht with h
    injection h with h2
    exact h2.symm
  subst hts
  obtain ⟨hlen, hsc, hfc, hch, hidx⟩ :=
    runItems_ok_facts oracle srcL tgtL ts 0 out hrun
  refine ⟨_, _, hperf, hlen, ?_, ?_⟩
  · show out.successful + out.failed
        + out.items.countP (fun t => t.status == "skipped") = ts.length
    rw [hsc, hfc, ← hlen]
    exact countP_status_partition out.items
  · intro hblank
    have hskip : out.items.countP (fun t => t.status == "skipped") = 0 := by
      apply List.countP_eq_zero.mpr
      intro itm hm
      obtain ⟨j, hj⟩ := List.mem_iff_getElem?.mp hm
      have hjlt : j < out.items.length := (List.getElem?_eq_some_iff.mp hj).1
      have hjts : j < ts.length := by omega
      have htj : ts[j]? = some ts[j] := List.getElem?_eq_some_iff.mpr ⟨hjts, rfl⟩
      obtain ⟨st, hst, hsti⟩ := hidx j ts[j] htj
      have hitm : itm = st.item := by
        rw [hj] at hsti
        cases hsti
        rfl
      obtain ⟨s, hs, _⟩ := hgood ts[j] (List.getElem?_mem htj)
      have hb : pyStrip s ≠ "" :=
        hblank ts[j] (List.getElem?_mem htj) s hs
      rw [hs] at hst
      rw [processItem_str_ok] at hst
      have hstv : st = stepForStr oracle srcL tgtL (0 + j) s := by
        cases hst
        rfl
      have := stepForStr_nonblank_not_skipped oracle srcL tgtL (0 + j) s hb
      rw [← hstv] at this
      rw [hitm]
      simpa using this
    constructor
    · exact hskip
    · have hpart := countP_status_partition out.items
      show out.successful + out.failed = ts.length
      rw [hsc, hfc, ← hlen]
      rw [hskip] at hpart
      omega

/-- C1 amended witness at the sample request and stub collaborator. -/
theorem c1_amended_witness :
    ∃ res stats,
      perform_translation sampleOracle sampleReq "t" "u" "n"
        = Except.ok (res, stats) ∧
      res.translations.length = [Value.vStr "Hello"].length ∧
      res.request_metadata.successful_translations
        + res.request_metadata.failed_translations
        + res.request_metadata.skipped_translations
        = [Value.vStr "Hello"].length ∧
      ((∀ t ∈ [Value.vStr "Hello"], ∀ s, t = Value.vStr s → pyStrip s ≠ "") →
        res.request_metadata.skipped_translations = 0 ∧
        res.request_metadata.successful_translations
          + res.request_metadata.failed_translations
          = [Value.vStr "Hello"].length) :=
  c1_amended sampleOracle sampleReq [Value.vStr "Hello"] "t" "u" "n" rfl rfl

/-! ### Claim C4 -/

/-- C4: for every validated request, the output translations list
preserves input order: the entry at position j carries `original_text`
equal to the j-th input text and `index` equal to j. -/
theorem c4_order_preservation (oracle : TranslateOracle) (rd : Value)
    (ts : List Value) (tid uid now : String)
    (hv : (validate_translation_request rd).valid = true)
    (ht : dictGet rd "texts" = some (Value.vList ts)) :
    ∃ res stats,
      perform_translation oracle rd tid uid now = Except.ok (res, stats) ∧
      res.translations.length = ts.length ∧
      (∀ (j : Nat) (itm : ItemResult) (t : Value),
        res.translations[j]? = some itm → ts[j]? = some t →
        itm.originalText = t ∧ itm.index = j) := by
  obtain ⟨l, srcL, tgtL, ts2, out, hrd, hsrc, htgt, htexts, hrun, hgood, hperf⟩ :=
    perform_validated oracle rd tid uid now hv
  have hts : ts = ts2 := by
    rw [hrd] at ht
    simp only [dictGet] at ht
    rw [htexts] at ht
    injection ht with h
    injection h with h2
    exact h2.symm
  subst hts
  obtain ⟨hlen, _, _, _, hidx⟩ :=
    runItems_ok_facts oracle srcL tgtL ts 0 _ hrun
  refine ⟨_, _, hperf, hlen, ?_⟩
  intro j itm t hitm htj
  obtain ⟨st, hst, hsti⟩ := hidx j t htj
  have hitm2 : out.items[j]? = some itm := hitm
  rw [hitm2] at hsti
  injection hsti with hsame
  subst hsame
  have := processItem_ok_origin oracle srcL tgtL (0 + j) t st hst
  simpa using this

/-- C4 witness at the sample request and stub collaborator. -/
theorem c4_witness :
    ∃ res stats,
      perform_translation sampleOracle sampleReq "t" "u" "n"
        = Except.ok (res, stats) ∧
      res.translations.length = [Value.vStr "Hello"].length ∧
      (∀ (j : Nat) (itm : ItemResult) (t : Value),
        res.translations[j]? = some itm →
        [Value.vStr "Hello"][j]? = some t →
        itm.originalText = t ∧ itm.index = j) :=
  c4_order_preservation sampleOracle sampleReq [Value.vStr "Hello"] "t" "u" "n" rfl rfl

/-! ### Claim C5 -/

theorem pyRound2_zero : pyRound2 0 = 0 := by
  have hf : Rat.floor 0 = 0 := rfl
  norm_num [pyRound2, pyRoundTo, hf]

theorem performTry_ok_inversion (oracle : TranslateOracle) (rd : Value)
    (tid uid now : String) (res : PTResult) (stats : PTStats)
    (h : performTry oracle rd tid uid now = Except.ok (res, stats)) :
    ∃ srcL tgtL textsV elems out,
      dictGet rd "source_language" = some srcL ∧
      dictGet rd "target_language" = some tgtL ∧
      dictGet rd "texts" = some textsV ∧
      pyElems textsV = some elems ∧
      runItems oracle srcL tgtL 0 elems = Except.ok out ∧
      res = ⟨⟨srcL, tgtL, elems.length, out.successful, out.failed,
          out.items.countP (fun t => t.status == "skipped"), now, tid, uid⟩,
        out.items,
        ⟨(if elems.length > 0 then
            pyRound2 ((out.successful : ℚ) / (elems.length : ℚ) * 100) else 0),
          out.chars,
          (if out.successful > 0 then
            pyRound2 ((out.chars : ℚ) / (out.successful : ℚ)) else 0),
          some 0⟩,
        (if out.errors.isEmpty then none else some out.errors)⟩ ∧
      stats = ⟨out.calls, out.tooLong⟩ := by
  unfold performTry at h
  split at h
  next => simp at h
  next srcL hsrc =>
    split at h
    next => simp at h
    next tgtL htgt =>
      split at h
      next => simp at h
      next textsV htexts =>
        split at h
        next => simp at h
        next elems helems =>
          split at h
          next ec hrun => simp at h
          next out hout =>
            simp only [Except.ok.injEq, Prod.mk.injEq] at h
            exact ⟨srcL, tgtL, textsV, elems, out, hsrc, htgt, htexts, helems,
              hout, h.1.symm, h.2.symm⟩

theorem performFallback_ok_inversion (rd : Value) (e : PyErr)
    (tid uid now : String) (res : PTResult)
    (h : performFallback rd e tid uid now = Except.ok res) :
    ∃ elems,
      pyElems (dictGetD rd "texts" (Value.vList [])) = some elems ∧
      res = ⟨⟨dictGetD rd "source_language" (Value.vStr "unknown"),
          dictGetD rd "target_language" (Value.vStr "unknown"),
          elems.length, 0, elems.length, 0, now, tid, uid⟩,
        elems.enum.map (fun p =>
          ItemResult.error p.2 p.1 ("Translation service error: " ++ e.msg)),
        ⟨0, 0, 0, none⟩,
        some ["Critical translation error: " ++ e.msg]⟩ := by
  unfold performFallback at h
  split at h
  next => simp at h
  next elems helems =>
    simp only [Except.ok.injEq] at h
    exact ⟨elems, helems, h.symm⟩

theorem charContribution_error_items (elems : List Value) (msg : String) :
    ((elems.enum.map (fun p => ItemResult.error p.2 p.1 msg)).map
      ItemResult.charContribution).sum = 0 := by
  rw [List.map_map]
  apply List.sum_eq_zero
  intro x hx
  obtain ⟨p, _, hp⟩ := List.mem_map.mp hx
  rw [← hp]
  rfl

/-- C5: in every returned result summary, `success_rate` equals
`round(successful / total * 100, 2)` when `total_texts` is positive and 0
when it is zero, and `total_characters_translated` is the sum of the
translated-text lengths over the successful entries only (skipped and
error entries contribute nothing). -/
theorem c5_summary (oracle : TranslateOracle) (rd : Value) (tid uid now : String)
    (res : PTResult) (stats : PTStats)
    (h : perform_translation oracle rd tid uid now = Except.ok (res, stats)) :
    res.summary.success_rate =
      (if res.request_metadata.total_texts > 0 then
        pyRound2 ((res.request_metadata.successful_translations : ℚ)
          / (res.request_metadata.total_texts : ℚ) * 100)
      else 0) ∧
    res.summary.total_characters_translated =
      (res.translations.map ItemResult.charContribution).sum := by
  unfold perform_translation at h
  cases htry : performTry oracle rd tid uid now with
  | ok r =>
    rw [htry] at h
    simp only [Except.ok.injEq] at h
    subst h
    obtain ⟨srcL, tgtL, textsV, elems, out, _, _, _, _, hrun, hres, _⟩ :=
      performTry_ok_inversion oracle rd tid uid now res stats htry
    obtain ⟨_, _, _, hch, _⟩ := runItems_ok_facts oracle srcL tgtL elems 0 out hrun
    subst hres
    exact ⟨rfl, hch⟩
  | error p =>
    obtain ⟨e, c⟩ := p
    rw [htry] at h
    have h2 : (match performFallback rd e tid uid now with
        | Except.ok resF => Except.ok (resF, (⟨c, 0⟩ : PTStats))
        | Except.error e2 => (Except.error e2 : Except PyErr (PTResult × PTStats)))
        = Except.ok (res, stats) := h
    cases hfb : performFallback rd e tid uid now with
    | error e2 => rw [hfb] at h2; simp at h2
    | ok resF =>
      rw [hfb] at h2
      simp only [Except.ok.injEq, Prod.mk.injEq] at h2
      obtain ⟨h1, _⟩ := h2
      subst h1
      obtain ⟨elems, helems, hres⟩ :=
        performFallback_ok_inversion rd e tid uid now resF hfb
      subst hres
      constructor
      · show (0 : ℚ) = if elems.length > 0 then
          pyRound2 (((0 : Nat) : ℚ) / (elems.length : ℚ) * 100) else 0
        by_cases hpos : elems.length > 0
        · rw [if_pos hpos]
          norm_num [pyRound2_zero]
        · rw [if_neg hpos]
      · show (0 : Nat) = _
        rw [charContribution_error_items]

/-- The result the driver computes for the sample request under the stub
collaborator (the summary rationals are kept in the unevaluated form the
code builds, since rational normalization does not reduce in the kernel). -/
def sampleRes : PTResult :=
  ⟨⟨Value.vStr "en", Value.vStr "es", 1, 1, 0, 0, "n", "t", "u"⟩,
   [ItemResult.success (Value.vStr "Hello") "hola" 0 (Value.vStr "en")
      (Value.vStr "es") 4],
   ⟨pyRound2 (((1 : Nat) : ℚ) / ((1 : Nat) : ℚ) * 100), 4,
    pyRound2 (((4 : Nat) : ℚ) / ((1 : Nat) : ℚ)), some 0⟩,
   none⟩

/-- C5 witness at the sample request and stub collaborator. -/
theorem c5_witness :
    sampleRes.summary.success_rate =
      (if sampleRes.request_metadata.total_texts > 0 then
        pyRound2 ((sampleRes.request_metadata.successful_translations : ℚ)
          / (sampleRes.request_metadata.total_texts : ℚ) * 100)
      else 0) ∧
    sampleRes.summary.total_characters_translated =
      (sampleRes.translations.map ItemResult.charContribution).sum :=
  c5_summary sampleOracle sampleReq "t" "u" "n" sampleRes ⟨1, 0⟩ rfl

/-! ### Claim C8 -/

/-- C8: the retry loop makes at most 3 translate calls per item; when all
three attempts fail on a non-blank text of a validated request, that entry
is recorded with status `error` carrying the stringified last failure, and
the batch still yields one entry per input text (a failing item never
aborts the loop). -/
theorem c8_retry_and_continue (oracle : TranslateOracle) (rd : Value)
    (ts : List Value) (tid uid now : String) (j : Nat) (s : String)
    (e0 e1 e2 : PyErr)
    (hv : (validate_translation_request rd).valid = true)
    (ht : dictGet rd "texts" = some (Value.vList ts))
    (hj : ts[j]? = some (Value.vStr s))
    (hb : pyStrip s ≠ "")
    (h0 : ∀ srcL tgtL, oracle (pyStrip s) srcL tgtL 0 = Except.error e0)
    (h1 : ∀ srcL tgtL, oracle (pyStrip s) srcL tgtL 1 = Except.error e1)
    (h2 : ∀ srcL tgtL, oracle (pyStrip s) srcL tgtL 2 = Except.error e2) :
    (∀ text srcL tgtL, (translateWithRetry oracle text srcL tgtL).2 ≤ 3) ∧
    ∃ res stats,
      perform_translation oracle rd tid uid now = Except.ok (res, stats) ∧
      res.translations.length = ts.length ∧
      res.translations[j]? = some (ItemResult.error (Value.vStr s) j e2.msg) := by
  refine ⟨fun text srcL tgtL => translateWithRetry_calls_le oracle text srcL tgtL, ?_⟩
  obtain ⟨l, srcL, tgtL, ts2, out, hrd, hsrc, htgt, htexts, hrun, hgood, hperf⟩ :=
    perform_validated oracle rd tid uid now hv
  have hts : ts = ts2 := by
    rw [hrd] at ht
    simp only [dictGet] at ht
    rw [htexts] at ht
    injection ht with h
    injection h with h2
    exact h2.symm
  subst hts
  obtain ⟨hlen, _, _, _, hidx⟩ :=
    runItems_ok_facts oracle srcL tgtL ts 0 out hrun
  refine ⟨_, _, hperf, hlen, ?_⟩
  obtain ⟨st, hst, hsti⟩ := hidx j (Value.vStr s) hj
  obtain ⟨s2, hs2, hsz⟩ := hgood (Value.vStr s) (List.getElem?_mem hj)
  injection hs2 with hss
  subst hss
  rw [processItem_str_ok] at hst
  injection hst with hstv
  rw [stepForStr_all_fail oracle srcL tgtL (0 + j) s e0 e1 e2 hb hsz
    (h0 srcL tgtL) (h1 srcL tgtL) (h2 srcL tgtL)] at hstv
  show out.items[j]? = some (ItemResult.error (Value.vStr s) j e2.msg)
  rw [hsti, ← hstv]
  simp

/-- C8 witness: a single-text request under an always-failing collaborator. -/
theorem c8_witness :
    (∀ text srcL tgtL, (translateWithRetry failingOracle text srcL tgtL).2 ≤ 3) ∧
    ∃ res stats,
      perform_translation failingOracle sampleReq "t" "u" "n"
        = Except.ok (res, stats) ∧
      res.translations.length = [Value.vStr "Hello"].length ∧
      res.translations[0]? = some (ItemResult.error (Value.vStr "Hello") 0
        "service down") :=
  c8_retry_and_continue failingOracle sampleReq [Value.vStr "Hello"] "t" "u" "n" 0
    "Hello" ⟨"Exception", "service down"⟩ ⟨"Exception", "service down"⟩
    ⟨"Exception", "service down"⟩ rfl rfl rfl (by decide)
    (fun _ _ => rfl) (fun _ _ => rfl) (fun _ _ => rfl)

/-! ### Claim C9 -/

/-- C9: a request whose texts include a string over 5000 UTF-8 bytes never
passes validation; the HTTP handler then neither invokes the driver nor
the translate collaborator; and for every validator-approved request the
drivers own over-length branch never fires. -/
theorem c9_oversize_never_translated (oracle : TranslateOracle) (rd : Value)
    (ts : List Value) (j : Nat) (s : String)
    (ht : dictGet rd "texts" = some (Value.vList ts))
    (hj : ts[j]? = some (Value.vStr s))
    (hsz : 5000 < s.utf8ByteSize) :
    (validate_translation_request rd).valid = false ∧
    (∀ env method rid tid uid now ptime,
      (handle_api_gateway_event oracle env method rd rid tid uid now ptime).2.driverInvoked
        = false ∧
      (handle_api_gateway_event oracle env method rd rid tid uid now ptime).2.translateCalls
        = 0) ∧
    (∀ rd2 tid uid now res stats,
      (validate_translation_request rd2).valid = true →
      perform_translation oracle rd2 tid uid now = Except.ok (res, stats) →
      stats.tooLong = 0) := by
  have hinv : (validate_translation_request rd).valid = false := by
    cases hvv : (validate_translation_request rd).valid with
    | false => rfl
    | true =>
      exfalso
      obtain ⟨l, srcL, tgtL, ts2, hrd, hsrc, htgt, htexts, _, _, _, _, hct⟩ :=
        validate_valid_elim hvv
      have hts : ts = ts2 := by
        rw [hrd] at ht
        simp only [dictGet] at ht
        rw [htexts] at ht
        injection ht with h
        injection h with h2
        exact h2.symm
      subst hts
      have := (checkTexts_eq_none_iff 0 ts).mp hct (Value.vStr s)
        (List.getElem?_mem hj)
      simp only [goodTextB, decide_eq_true_eq] at this
      omega
  refine ⟨hinv, ?_, ?_⟩
  · intro env method rid tid uid now ptime
    unfold handle_api_gateway_event
    by_cases hm : method = some "OPTIONS"
    · rw [if_pos hm]
      exact ⟨rfl, rfl⟩
    · rw [if_neg hm]
      by_cases htr : pyTruthy rd
      · rw [if_neg (by simp [htr])]
        simp [hinv]
      · rw [if_pos (by simp [Bool.not_eq_true] at htr ⊢; exact htr)]
        exact ⟨rfl, rfl⟩
  · intro rd2 tid uid now res stats hv2 hperf2
    obtain ⟨l, srcL, tgtL, ts2, out, hrd, hsrc, htgt, htexts, hrun, hgood, hp⟩ :=
      perform_validated oracle rd2 tid uid now hv2
    rw [hp] at hperf2
    injection hperf2 with hpair
    have hstats : stats = (⟨out.calls, out.tooLong⟩ : PTStats) := by
      have := congrArg Prod.snd hpair
      exact this.symm
    have htl : out.tooLong = 0 := by
      apply runItems_tooLong_zero oracle srcL tgtL ts2 0 out hrun
      intro t htm i2 st hpi
      obtain ⟨s2, hs2, hsz2⟩ := hgood t htm
      subst hs2
      rw [processItem_str_ok] at hpi
      injection hpi with hpi2
      rw [← hpi2]
      exact stepForStr_small_no_tooLong oracle srcL tgtL i2 s2 hsz2
    rw [hstats]
    exact htl

/-- An oversize text: 1667 three-byte characters, 5001 UTF-8 bytes. -/
def oversizeText : String := String.mk (List.replicate 1667 '€')

/-- A request whose only text exceeds the 5000-byte limit. -/
def oversizeReq : Value :=
  Value.vDict [("source_language", Value.vStr "en"),
    ("target_language", Value.vStr "es"),
    ("texts", Value.vList [Value.vStr oversizeText])]

set_option maxRecDepth 10000 in
/-- C9 witness at the oversize request. -/
theorem c9_witness :
    (validate_translation_request oversizeReq).valid = false ∧
    (handle_api_gateway_event sampleOracle envOk (some "POST") oversizeReq
      "r" "t" "u" "n" 0).2.driverInvoked = false ∧
    (handle_api_gateway_event sampleOracle envOk (some "POST") oversizeReq
      "r" "t" "u" "n" 0).2.translateCalls = 0 :=
  ⟨(c9_oversize_never_translated sampleOracle oversizeReq
      [Value.vStr oversizeText] 0 oversizeText rfl rfl (by decide)).1,
   ((c9_oversize_never_translated sampleOracle oversizeReq
      [Value.vStr oversizeText] 0 oversizeText rfl rfl (by decide)).2.1
      envOk (some "POST") "r" "t" "u" "n" 0).1,
   ((c9_oversize_never_translated sampleOracle oversizeReq
      [Value.vStr oversizeText] 0 oversizeText rfl rfl (by decide)).2.1
      envOk (some "POST") "r" "t" "u" "n" 0).2⟩

/-! ### Claim C6 -/

/-- A truthy request that fails validation, for the C6 scenario. -/
def invalidReq : Value := Value.vDict [("foo", Value.vInt 1)]

/-- C6 counterexample: on a validation-failing HTTP request the 400 body
carries the keys `error`, `message` and `request_id` — there is no
`timestamp` key, contradicting the claim that the body contains
`timestamp`. -/
theorem c6_counterexample :
    pyTruthy invalidReq = true ∧
    (validate_translation_request invalidReq).valid = false ∧
    (handle_api_gateway_event sampleOracle envOk (some "POST") invalidReq
      "rid" "tid" "uid" "now" 0).1.statusCode = 400 ∧
    dictGet (handle_api_gateway_event sampleOracle envOk (some "POST") invalidReq
      "rid" "tid" "uid" "now" 0).1.body "error" = some (Value.vBool true) ∧
    (dictGet (handle_api_gateway_event sampleOracle envOk (some "POST") invalidReq
      "rid" "tid" "uid" "now" 0).1.body "message").isSome = true ∧
    dictGet (handle_api_gateway_event sampleOracle envOk (some "POST") invalidReq
      "rid" "tid" "uid" "now" 0).1.body "timestamp" = none :=
  ⟨rfl, rfl, rfl, rfl, rfl, rfl⟩

/-- C6 (amended): on an HTTP request that is truthy but fails validation,
the response is a 400 whose body holds exactly `error`, `message` and
`request_id` (no timestamp — that key appears only in 500 bodies), and the
driver is never invoked, with zero translate calls. -/
theorem c6_amended (oracle : TranslateOracle) (env : PersistEnv)
    (method : Option String) (rd : Value) (rid tid uid now : String) (ptime : ℚ)
    (hm : method ≠ some "OPTIONS")
    (htr : pyTruthy rd = true)
    (hv : (validate_translation_request rd).valid = false) :
    (handle_api_gateway_event oracle env method rd rid tid uid now ptime).1.statusCode
      = 400 ∧
    (handle_api_gateway_event oracle env method rd rid tid uid now ptime).1.body
      = Value.vDict [("error", Value.vBool true),
        ("message", Value.vStr ((validate_translation_request rd).error.getD "")),
        ("request_id", Value.vStr rid)] ∧
    (handle_api_gateway_event oracle env method rd rid tid uid now ptime).2.driverInvoked
      = false ∧
    (handle_api_gateway_event oracle env method rd rid tid uid now ptime).2.translateCalls
      = 0 := by
  unfold handle_api_gateway_event
  rw [if_neg hm, if_neg (by simp [htr])]
  simp [hv, create_api_gateway_response]

/-- C6 amended witness at a concrete invalid request. -/
theorem c6_amended_witness :
    (handle_api_gateway_event sampleOracle envOk (some "POST") invalidReq
      "rid" "t" "u" "n" 0).1.statusCode = 400 ∧
    (handle_api_gateway_event sampleOracle envOk (some "POST") invalidReq
      "rid" "t" "u" "n" 0).1.body
      = Value.vDict [("error", Value.vBool true),
        ("message", Value.vStr ((validate_translation_request invalidReq).error.getD "")),
        ("request_id", Value.vStr "rid")] ∧
    (handle_api_gateway_event sampleOracle envOk (some "POST") invalidReq
      "rid" "t" "u" "n" 0).2.driverInvoked = false ∧
    (handle_api_gateway_event sampleOracle envOk (some "POST") invalidReq
      "rid" "t" "u" "n" 0).2.translateCalls = 0 :=
  c6_amended sampleOracle envOk (some "POST") invalidReq "rid" "t" "u" "n" 0
    (by decide) rfl rfl

/-! ### Claim C7 -/

/-- C7 counterexample: the allow-methods header of every handler response
is `GET,POST,OPTIONS,PUT,DELETE`, not the `GET,POST,OPTIONS` the claim
states. -/
theorem c7_counterexample :
    ((handle_api_gateway_event sampleOracle envOk (some "OPTIONS") Value.vNull
      "r" "t" "u" "n" 0).1.headers.lookup "Access-Control-Allow-Methods")
      = some "GET,POST,OPTIONS,PUT,DELETE" ∧
    ("GET,POST,OPTIONS,PUT,DELETE" : String) ≠ "GET,POST,OPTIONS" :=
  ⟨rfl, by decide⟩

/-- C7 (amended): every HTTP response of the handler carries
`Access-Control-Allow-Origin: *` and
`Access-Control-Allow-Methods: GET,POST,OPTIONS,PUT,DELETE`, regardless of
status or outcome. -/
theorem c7_amended (oracle : TranslateOracle) (env : PersistEnv)
    (method : Option String) (rd : Value) (rid tid uid now : String) (ptime : ℚ) :
    (handle_api_gateway_event oracle env method rd rid tid uid now ptime).1.headers.lookup
      "Access-Control-Allow-Origin" = some "*" ∧
    (handle_api_gateway_event oracle env method rd rid tid uid now ptime).1.headers.lookup
      "Access-Control-Allow-Methods" = some "GET,POST,OPTIONS,PUT,DELETE" := by
  unfold handle_api_gateway_event
  by_cases hm : method = some "OPTIONS"
  · rw [if_pos hm]
    exact ⟨rfl, rfl⟩
  · rw [if_neg hm]
    by_cases htr : pyTruthy rd
    · rw [if_neg (by simp [htr])]
      by_cases hv : (validate_translation_request rd).valid = false
      · rw [if_pos hv]
        exact ⟨rfl, rfl⟩
      · rw [if_neg hv]
        cases hp : perform_translation oracle rd tid uid now with
        | error e =>
          exact ⟨rfl, rfl⟩
        | ok p =>
          obtain ⟨result, stats⟩ := p
          exact ⟨rfl, rfl⟩
    · rw [if_pos (by simpa using htr)]
      exact ⟨rfl, rfl⟩

/-! ### Claim C2 -/

/-- Concrete trace of the modeled S3 per-file processing: on a file that
passes validation and translation, the unbound name `context` (source
line 890) raises and the per-file record is the NameError error record —
identically under all-succeeding writes and under a failing
response-object write, since the response write is never reached. -/
theorem process_s3_file_name_error_sample :
    process_s3_file sampleOracle envOk sampleReq none "f.json" "tid" "now"
      = s3FileErrorValue "f.json"
        ⟨"NameError", "name \x27context\x27 is not defined"⟩ ∧
    process_s3_file sampleOracle envRespFail sampleReq none "f.json" "tid" "now"
      = s3FileErrorValue "f.json"
        ⟨"NameError", "name \x27context\x27 is not defined"⟩ :=
  ⟨rfl, rfl⟩

/-- C2: persistence outcomes never influence the user-visible response, on
every trigger path. On the HTTP path each of the four writes is wrapped at
its call site, so the response is identical under any two persistence
environments; the direct-invocation handler takes no persistence
collaborator at all (visible from the signature of
`handle_direct_invocation`); and on the S3 path the metadata-block writes
are swallowed and the response-object write is unreachable — the unbound
name `context` raises NameError at source line 890, before
`save_translation_result` at line 900 — so the per-file record is likewise
identical under any two environments. In particular an environment failing
every write and one succeeding on every write produce the same responses
while translation itself succeeds. -/
theorem c2_persistence_invariance (oracle : TranslateOracle)
    (env env2 : PersistEnv) (method : Option String) (rd : Value)
    (rid tid uid now : String) (ptime : ℚ) (fileData : Value)
    (s3meta : Option String) (key tid2 now2 : String) :
    handle_api_gateway_event oracle env method rd rid tid uid now ptime
      = handle_api_gateway_event oracle env2 method rd rid tid uid now ptime ∧
    process_s3_file oracle env fileData s3meta key tid2 now2
      = process_s3_file oracle env2 fileData s3meta key tid2 now2 :=
  ⟨rfl, rfl⟩

/-! ### Claim C10 -/

theorem perform_translation_after_raise (oracle : TranslateOracle) (rd : Value)
    (tid uid now : String) (e : PyErr) (c : Nat)
    (hp : performTry oracle rd tid uid now = Except.error (e, c)) :
    perform_translation oracle rd tid uid now =
      (match performFallback rd e tid uid now with
       | Except.ok res => Except.ok (res, ⟨c, 0⟩)
       | Except.error e2 => Except.error e2) := by
  unfold perform_translation
  rw [hp]

/-- C10 counterexample: `perform_translation` is not total on input
mappings — when the request lacks `source_language` (raising `KeyError`
inside the `try`) and its `texts` member is a number, the `except` handler
itself raises `TypeError` at `len(...)` and the exception propagates. -/
theorem c10_counterexample :
    ∃ e, perform_translation sampleOracle (Value.vDict [("texts", Value.vInt 5)])
      "t" "u" "n" = Except.error e :=
  ⟨_, rfl⟩

/-- C10 (amended): for every input mapping whose `texts` member (defaulted
to the empty list when absent) is a sized value, `perform_translation`
returns a structured result; and whenever the `try` body raises, the
returned fallback has zero successes, `failed_translations` equal to the
number of texts, one status-`error` entry per text in input order, and
`success_rate` 0 (visible in the returned structure). -/
theorem c10_amended (oracle : TranslateOracle) (l : List (String × Value))
    (tid uid now : String) (elems : List Value)
    (hs : pyElems (dictGetD (Value.vDict l) "texts" (Value.vList []))
      = some elems) :
    (∃ r, perform_translation oracle (Value.vDict l) tid uid now = Except.ok r) ∧
    (∀ e c, performTry oracle (Value.vDict l) tid uid now = Except.error (e, c) →
      perform_translation oracle (Value.vDict l) tid uid now = Except.ok
        (⟨⟨dictGetD (Value.vDict l) "source_language" (Value.vStr "unknown"),
            dictGetD (Value.vDict l) "target_language" (Value.vStr "unknown"),
            elems.length, 0, elems.length, 0, now, tid, uid⟩,
          elems.enum.map (fun p =>
            ItemResult.error p.2 p.1 ("Translation service error: " ++ e.msg)),
          ⟨0, 0, 0, none⟩,
          some ["Critical translation error: " ++ e.msg]⟩,
         ⟨c, 0⟩)) := by
  have hfb : ∀ e : PyErr, performFallback (Value.vDict l) e tid uid now = Except.ok
      ⟨⟨dictGetD (Value.vDict l) "source_language" (Value.vStr "unknown"),
          dictGetD (Value.vDict l) "target_language" (Value.vStr "unknown"),
          elems.length, 0, elems.length, 0, now, tid, uid⟩,
        elems.enum.map (fun p =>
          ItemResult.error p.2 p.1 ("Translation service error: " ++ e.msg)),
        ⟨0, 0, 0, none⟩,
        some ["Critical translation error: " ++ e.msg]⟩ := by
    intro e
    unfold performFallback
    rw [hs]
  constructor
  · cases hp : performTry oracle (Value.vDict l) tid uid now with
    | ok r =>
      refine ⟨r, ?_⟩
      unfold perform_translation
      rw [hp]
    | error p =>
      obtain ⟨e, c⟩ := p
      refine ⟨(⟨⟨dictGetD (Value.vDict l) "source_language" (Value.vStr "unknown"),
          dictGetD (Value.vDict l) "target_language" (Value.vStr "unknown"),
          elems.length, 0, elems.length, 0, now, tid, uid⟩,
        elems.enum.map (fun p =>
          ItemResult.error p.2 p.1 ("Translation service error: " ++ e.msg)),
        ⟨0, 0, 0, none⟩,
        some ["Critical translation error: " ++ e.msg]⟩, ⟨c, 0⟩), ?_⟩
      rw [perform_translation_after_raise oracle (Value.vDict l) tid uid now e c hp,
        hfb e]
  · intro e c hp
    rw [perform_translation_after_raise oracle (Value.vDict l) tid uid now e c hp,
      hfb e]

/-- C10 amended witness: a mapping with a proper texts list but no
source language returns the structured fallback rather than raising. -/
theorem c10_amended_witness :
    ∃ r, perform_translation sampleOracle
      (Value.vDict [("texts", Value.vList [Value.vStr "hi"])]) "t" "u" "n"
      = Except.ok r :=
  (c10_amended sampleOracle [("texts", Value.vList [Value.vStr "hi"])] "t" "u" "n"
    [Value.vStr "hi"] rfl).1

/-! ### Claim C3

The claim describes the validator as an ordered first-failure-wins
cascade. The cascade is formalized here as its own definition, built from
one predicate per claimed check, to be compared with the source-derived
`validate_translation_request`. -/

/-- Claim check 1, as the claim words it: the input is a non-null
mapping. -/
def claimIsMapping (rd : Value) : Bool := isDictV rd

/-- Claim check 2: the three required keys are present. -/
def claimHasRequired (rd : Value) : Bool :=
  requiredFields.all (fun f => (dictGet rd f).isSome)

/-- Claim check 3a: `source_language` is a member of the supported set. -/
def claimSrcSupported (rd : Value) : Bool :=
  isSupportedLang (dictGetD rd "source_language" Value.vNull)

/-- Claim check 3b: `target_language` is a member of the supported set. -/
def claimTgtSupported (rd : Value) : Bool :=
  isSupportedLang (dictGetD rd "target_language" Value.vNull)

/-- Claim check 4: `texts` is a list. -/
def claimTextsIsList (rd : Value) : Bool :=
  match dictGet rd "texts" with
  | some (Value.vList _) => true
  | _ => false

/-- Claim check 5: `texts` is non-empty. -/
def claimTextsNonempty (rd : Value) : Bool :=
  match dictGet rd "texts" with
  | some (Value.vList ts) => !ts.isEmpty
  | _ => false

/-- Claim check 6: `texts` has at most 100 items. -/
def claimTextsLe100 (rd : Value) : Bool :=
  match dictGet rd "texts" with
  | some (Value.vList ts) => ts.length ≤ 100
  | _ => false

/-- The `texts` list of a request (empty when absent or not a list). -/
def textsOf (rd : Value) : List Value :=
  match dictGet rd "texts" with
  | some (Value.vList ts) => ts
  | _ => []

/-- The ordered cascade of claim checks 2-7 (after the mapping check),
first failure wins, reusing the human-readable reasons of the source. -/
def claimChecksAfterMapping (rd : Value) : ValidationResult :=
  if claimHasRequired rd = false then
    ⟨false, some ("Missing required field: \x27"
      ++ (findMissingField (dictEntries rd)).getD "" ++ "\x27")⟩
  else if claimSrcSupported rd = false then
    ⟨false, some (unsupportedLangMsg "source"
      (dictGetD rd "source_language" Value.vNull))⟩
  else if claimTgtSupported rd = false then
    ⟨false, some (unsupportedLangMsg "target"
      (dictGetD rd "target_language" Value.vNull))⟩
  else if claimTextsIsList rd = false then
    ⟨false, some "Field \x27texts\x27 must be a list/array"⟩
  else if claimTextsNonempty rd = false then
    ⟨false, some "Field \x27texts\x27 cannot be empty"⟩
  else if claimTextsLe100 rd = false then
    ⟨false, some ("Too many texts: " ++ toString (textsOf rd).length
      ++ " (maximum 100 texts per request)")⟩
  else
    match checkTexts 0 (textsOf rd) with
    | some e => ⟨false, some e⟩
    | none => ⟨true, none⟩

/-- The validator of the claim, as amended: check 1 is that the input is
a TRUTHY mapping (in Python the empty dict is falsy and fails the
`not request_data` test), then checks 2-7 in order. -/
def claimOrderedValidate (rd : Value) : ValidationResult :=
  if (pyTruthy rd && claimIsMapping rd) = false then ⟨false, some objectMsg⟩
  else claimChecksAfterMapping rd

/-- The validator exactly as the claim words it: check 1 is only that the
input is a non-null mapping, then checks 2-7 in order. -/
def claimOrderedValidateOriginal (rd : Value) : ValidationResult :=
  if claimIsMapping rd = false then ⟨false, some objectMsg⟩
  else claimChecksAfterMapping rd

/-- C3 counterexample: on the empty mapping the claimed order would first
fail the required-keys check and return the missing-field reason, but the
code trips its `not request_data` truthiness test first and returns the
not-a-valid-object reason — so the code does not implement the claimed
cascade as stated. -/
theorem c3_counterexample :
    (validate_translation_request (Value.vDict [])).error = some objectMsg ∧
    (claimOrderedValidateOriginal (Value.vDict [])).error
      = some "Missing required field: \x27source_language\x27" ∧
    validate_translation_request (Value.vDict [])
      ≠ claimOrderedValidateOriginal (Value.vDict []) := by
  refine ⟨rfl, rfl, fun hco => ?_⟩
  have h2 : some objectMsg
      = some "Missing required field: \x27source_language\x27" :=
    congrArg ValidationResult.error hco
  injection h2 with h3
  exact absurd h3 (by decide)

theorem claimHasRequired_true_iff (l : List (String × Value)) :
    claimHasRequired (Value.vDict l) = true ↔ findMissingField l = none := by
  simp only [claimHasRequired, findMissingField, dictGet, List.all_eq_true,
    List.find?_eq_none, Option.isSome_iff_ne_none, Option.isNone_iff_eq_none]

theorem validateDictChecks_eq_claim (l : List (String × Value)) :
    validateDictChecks l = claimChecksAfterMapping (Value.vDict l) := by
  cases hm : findMissingField l with
  | some f =>
    have hreq : claimHasRequired (Value.vDict l) = false := by
      cases hr : claimHasRequired (Value.vDict l) with
      | false => rfl
      | true =>
        rw [(claimHasRequired_true_iff l).mp hr] at hm
        cases hm
    unfold validateDictChecks claimChecksAfterMapping
    rw [hm, if_pos hreq]
    simp [dictEntries, hm]
  | none =>
    have hreq : claimHasRequired (Value.vDict l) = true :=
      (claimHasRequired_true_iff l).mpr hm
    have hall : ∀ f ∈ requiredFields, ¬ ((l.lookup f).isNone = true) :=
      List.find?_eq_none.mp hm
    have hs : (l.lookup "source_language").isSome = true := by
      have := hall "source_language" (by simp [requiredFields])
      cases hx : l.lookup "source_language" <;> simp [hx] at this ⊢
    have htg : (l.lookup "target_language").isSome = true := by
      have := hall "target_language" (by simp [requiredFields])
      cases hx : l.lookup "target_language" <;> simp [hx] at this ⊢
    have htx : (l.lookup "texts").isSome = true := by
      have := hall "texts" (by simp [requiredFields])
      cases hx : l.lookup "texts" <;> simp [hx] at this ⊢
    obtain ⟨srcL, hsrc⟩ := Option.isSome_iff_exists.mp hs
    obtain ⟨tgtL, htgt⟩ := Option.isSome_iff_exists.mp htg
    obtain ⟨textsV, htexts⟩ := Option.isSome_iff_exists.mp htx
    have hsrcc : claimSrcSupported (Value.vDict l) = isSupportedLang srcL := by
      simp [claimSrcSupported, dictGetD, dictGet, hsrc]
    have htgtc : claimTgtSupported (Value.vDict l) = isSupportedLang tgtL := by
      simp [claimTgtSupported, dictGetD, dictGet, htgt]
    have lhs : validateDictChecks l =
        (if !(isSupportedLang ((l.lookup "source_language").getD Value.vNull)) then
          ⟨false, some (unsupportedLangMsg "source"
            ((l.lookup "source_language").getD Value.vNull))⟩
        else if !(isSupportedLang ((l.lookup "target_language").getD Value.vNull)) then
          ⟨false, some (unsupportedLangMsg "target"
            ((l.lookup "target_language").getD Value.vNull))⟩
        else textsChecks ((l.lookup "texts").getD Value.vNull)) := by
      simp only [validateDictChecks, hm]
    rw [lhs, hsrc, htgt, htexts]
    simp only [Option.getD_some]
    unfold claimChecksAfterMapping
    rw [if_neg (show ¬ (claimHasRequired (Value.vDict l) = false) by simp [hreq])]
    by_cases hsup1 : isSupportedLang srcL = true
    · rw [if_neg (show ¬ ((!isSupportedLang srcL) = true) by simp [hsup1]),
        if_neg (show ¬ (claimSrcSupported (Value.vDict l) = false) by
          simp [hsrcc, hsup1])]
      by_cases hsup2 : isSupportedLang tgtL = true
      · rw [if_neg (show ¬ ((!isSupportedLang tgtL) = true) by simp [hsup2]),
          if_neg (show ¬ (claimTgtSupported (Value.vDict l) = false) by
            simp [htgtc, hsup2])]
        cases textsV with
        | vList ts =>
          have hlist : claimTextsIsList (Value.vDict l) = true := by
            simp [claimTextsIsList, dictGet, htexts]
          have hnon : claimTextsNonempty (Value.vDict l) = !ts.isEmpty := by
            simp [claimTextsNonempty, dictGet, htexts]
          have hle : claimTextsLe100 (Value.vDict l)
              = decide (ts.length ≤ 100) := by
            simp [claimTextsLe100, dictGet, htexts]
          have htsof : textsOf (Value.vDict l) = ts := by
            simp [textsOf, dictGet, htexts]
          rw [if_neg (show ¬ (claimTextsIsList (Value.vDict l) = false) by
            simp [hlist])]
          simp only [textsChecks]
          by_cases hempt : ts.isEmpty
          · rw [if_pos (show ts.isEmpty = true from hempt),
              if_pos (show claimTextsNonempty (Value.vDict l) = false by
                simp [hnon, hempt])]
          · rw [if_neg (show ¬ (ts.isEmpty = true) from hempt),
              if_neg (show ¬ (claimTextsNonempty (Value.vDict l) = false) by
                simp [hnon, hempt])]
            by_cases hlen : ts.length > 100
            · rw [if_pos (show ts.length > 100 from hlen),
                if_pos (show claimTextsLe100 (Value.vDict l) = false by
                  rw [hle]; simp; omega),
                htsof]
            · rw [if_neg (show ¬ (ts.length > 100) from hlen),
                if_neg (show ¬ (claimTextsLe100 (Value.vDict l) = false) by
                  rw [hle]; simp; omega),
                htsof]
        | vNull =>
          rw [if_pos (show claimTextsIsList (Value.vDict l) = false by
            simp [claimTextsIsList, dictGet, htexts])]
          simp [textsChecks]
        | vBool b =>
          rw [if_pos (show claimTextsIsList (Value.vDict l) = false by
            simp [claimTextsIsList, dictGet, htexts])]
          simp [textsChecks]
        | vInt n =>
          rw [if_pos (show claimTextsIsList (Value.vDict l) = false by
            simp [claimTextsIsList, dictGet, htexts])]
          simp [textsChecks]
        | vStr s =>
          rw [if_pos (show claimTextsIsList (Value.vDict l) = false by
            simp [claimTextsIsList, dictGet, htexts])]
          simp [textsChecks]
        | vRat q =>
          rw [if_pos (show claimTextsIsList (Value.vDict l) = false by
            simp [claimTextsIsList, dictGet, htexts])]
          simp [textsChecks]
        | vDict d =>
          rw [if_pos (show claimTextsIsList (Value.vDict l) = false by
            simp [claimTextsIsList, dictGet, htexts])]
          simp [textsChecks]
      · have h2 : isSupportedLang tgtL = false := by simpa using hsup2
        rw [if_pos (show (!isSupportedLang tgtL) = true by simp [h2]),
          if_pos (show claimTgtSupported (Value.vDict l) = false by
            rw [htgtc]; exact h2)]
        simp [dictGetD, dictGet, htgt]
    · have h1 : isSupportedLang srcL = false := by simpa using hsup1
      rw [if_pos (show (!isSupportedLang srcL) = true by simp [h1]),
        if_pos (show claimSrcSupported (Value.vDict l) = false by
          rw [hsrcc]; exact h1)]
      simp [dictGetD, dictGet, hsrc]

/-- C3 (amended): the validator is extensionally the claimed ordered
first-failure-wins cascade, with check 1 amended from "a non-null
mapping" to "a truthy mapping" — the code rejects the falsy empty mapping
with the not-a-valid-object reason before looking at the required keys.
All later checks and their first-failure reasons are exactly as
claimed. -/
theorem c3_amended (rd : Value) :
    validate_translation_request rd = claimOrderedValidate rd := by
  cases rd
  case vDict l =>
    by_cases hemp : l.isEmpty
    · simp [validate_translation_request, claimOrderedValidate, pyTruthy,
        claimIsMapping, isDictV, hemp]
    · have heq : l.isEmpty = false := by simpa using hemp
      simp only [validate_translation_request, claimOrderedValidate, pyTruthy,
        claimIsMapping, isDictV, heq, dictEntries, Bool.not_false, Bool.not_true,
        Bool.or_false, Bool.and_true, Bool.true_eq_false, if_false]
      exact validateDictChecks_eq_claim l
  all_goals
    simp [validate_translation_request, claimOrderedValidate, claimIsMapping,
      isDictV, pyTruthy]

end TranslateService